import Mathlib

/-!
# StompRenderer: texture residency (`src/Texture.cpp`)

A shallow embedding of `omp::Texture` and of the device it talks to, followed
by the properties of the residency state machine and of the upload pipeline.

Machine words: `m_Flags` is a `uint16_t`, modelled as a `Nat` reduced modulo
`2 ^ 16` at every store.  Handles are natural numbers, `0` being the null
handle.  A C++ exception leaves the members written so far in place, so every
operation returns the asset and the world together with its outcome.
-/

namespace omp

/-! ## Residency flags -/

/-- The three residency constants of `Texture.h` (a header that is not part of
the sources at hand); they are taken as a parameter. -/
structure FlagBits where
  LoadedToGPU : Nat
  LoadedToCPU : Nat
  LoadedToUI : Nat
  deriving DecidableEq, Repr

/-- Modelled from the spec: the values of the constants are in `Texture.h`,
which is not among the sources; the data model calls them "independent bits
for resident on CPU, resident on GPU, registered with UI layer".  Each is a
non-zero 16-bit value and no two of them share a bit. -/
def FlagBits.Independent (F : FlagBits) : Prop :=
  (F.LoadedToGPU < 65536 ∧ F.LoadedToCPU < 65536 ∧ F.LoadedToUI < 65536) ∧
  (F.LoadedToGPU ≠ 0 ∧ F.LoadedToCPU ≠ 0 ∧ F.LoadedToUI ≠ 0) ∧
  (F.LoadedToGPU &&& F.LoadedToCPU = 0 ∧ F.LoadedToGPU &&& F.LoadedToUI = 0 ∧
    F.LoadedToCPU &&& F.LoadedToUI = 0)

instance (F : FlagBits) : Decidable F.Independent := by
  unfold FlagBits.Independent
  infer_instance

/-- A device or host handle; `0` is the null handle. -/
abbrev Handle := Nat

/-- The members of `omp::Texture` that `Texture.cpp` reads or writes. -/
structure Texture where
  m_Flags : Nat
  m_ContentPath : String
  /-- The pointer returned by the decoder; `none` is the null pointer. -/
  m_Pixels : Option Handle
  m_Width : Int
  m_Height : Int
  m_Size : Int
  m_MipLevels : Nat
  m_TextureSampler : Handle
  m_TextureImageView : Handle
  m_TextureImage : Handle
  m_TextureImageMemory : Handle
  m_Id : Nat
  deriving DecidableEq, Repr

/-- The body `m_Flags = (m_Flags & flags) ^ m_Flags;` of `removeFlags`, with a
`uint16_t` parameter. -/
def removeFlags (t : Texture) (flags : Nat) : Texture :=
  { t with m_Flags := ((t.m_Flags &&& (flags % 65536)) ^^^ t.m_Flags) % 65536 }

/-- The body `m_Flags = m_Flags | flags;` of `addFlags`, with a `uint16_t`
parameter. -/
def addFlags (t : Texture) (flags : Nat) : Texture :=
  { t with m_Flags := (t.m_Flags ||| (flags % 65536)) % 65536 }

/-- The body `return m_Flags & flags;` of `hasFlags`, converted to `bool`. -/
def hasFlags (t : Texture) (flags : Nat) : Bool :=
  (t.m_Flags &&& (flags % 65536)) != 0

/-! ## The device and the host, as seen from `Texture.cpp` -/

/-- The image layouts the code names. -/
inductive Layout where
  | UNDEFINED
  | TRANSFER_DST_OPTIMAL
  | SHADER_READ_ONLY_OPTIMAL
  deriving DecidableEq, Repr

/-- A device object, by kind and handle. -/
inductive DevObj where
  | sampler (h : Handle)
  | imageView (h : Handle)
  | image (h : Handle)
  | memory (h : Handle)
  | buffer (h : Handle)
  deriving DecidableEq, Repr

/-- One call that leaves `Texture.cpp`, with the arguments the code passes and
the handles the callee hands back (`none` when a creation call fails). -/
inductive Call where
  | vkCreateSampler (maxLod : Nat) (sampler : Option Handle)
  | createBuffer (size : Int) (result : Option (Handle × Handle))
  | vkMapMemory (memory : Handle) (size : Int)
  | memcpy (pixels : Option Handle) (size : Int)
  | vkUnmapMemory (memory : Handle)
  | stbi_image_free (pixels : Option Handle)
  | createImage (width height : Int) (mipLevels : Nat) (result : Option (Handle × Handle))
  | transitionImageLayout (image : Handle) (oldLayout newLayout : Layout) (mipLevels : Nat)
  | copyBufferToImage (buffer image : Handle) (width height : Int)
  | generateMipmaps (image : Handle) (width height : Int) (mipLevels : Nat)
  | vkDestroyBuffer (buffer : Handle)
  | vkFreeMemory (memory : Handle)
  | createImageView (image : Handle) (mipLevels : Nat) (view : Option Handle)
  | vkDestroySampler (sampler : Handle)
  | vkDestroyImageView (view : Handle)
  | vkDestroyImage (image : Handle)
  | ImGui_ImplVulkan_AddTexture (sampler view : Handle) (layout : Layout) (id : Handle)
  | VERROR (contentPath : String)
  deriving DecidableEq, Repr

/-- Everything outside the asset: the calls made so far (oldest first), the
device objects created and not yet destroyed, the next handle the device will
hand out, and the results of the creation calls still to come (`true` is
success; once the list is exhausted every creation succeeds). -/
structure World where
  calls : List Call
  live : List DevObj
  next : Handle
  script : List Bool
  deriving DecidableEq, Repr

/-- Record a call. -/
def World.log (w : World) (c : Call) : World :=
  { w with calls := w.calls ++ [c] }

/-- A device object comes to life. -/
def World.create (w : World) (o : DevObj) : World :=
  { w with live := o :: w.live }

/-- A device object is destroyed. -/
def World.destroy (w : World) (o : DevObj) : World :=
  { w with live := w.live.erase o }

/-- Result of the next creation call. -/
def World.outcome (w : World) : Bool :=
  w.script.headD true

/-- The next creation call has been made. -/
def World.consume (w : World) : World :=
  { w with script := w.script.tail }

/-- The device has handed out `k` handles. -/
def World.fresh (w : World) (k : Nat) : World :=
  { w with next := w.next + k }

/-- Every creation call still to come succeeds. -/
def World.Healthy (w : World) : Prop :=
  ∀ b ∈ w.script, b = true

instance (w : World) : Decidable w.Healthy := by
  unfold World.Healthy
  infer_instance

/-- How a call ended: it returned a value or it threw. -/
inductive Outcome (α : Type) where
  | returned (a : α)
  | thrown (what : String)
  deriving DecidableEq, Repr

/-- The outcome of a member function together with the asset and the world it
leaves behind (an exception does not undo the writes made before it). -/
structure Res (α : Type) where
  out : Outcome α
  tex : Texture
  world : World
  deriving DecidableEq, Repr

/-- Sequencing: a throw skips the rest. -/
def Res.andThen {α β : Type} (r : Res α) (k : α → Texture → World → Res β) : Res β :=
  match r.out with
  | .returned a => k a r.tex r.world
  | .thrown e => ⟨.thrown e, r.tex, r.world⟩

/-- What the decoder hands back for a readable image. -/
structure Decoded where
  pixels : Handle
  width : Int
  height : Int
  channels : Int
  deriving DecidableEq, Repr

/-- The result of `stbi_load(path, &m_Width, &m_Height, &tex_channels, 4)`: a
pixel buffer, with the width and height written through the pointers, or a
null pointer, in which case the callee has either left the two integers alone
(`none`) or written them before it gave up (`some`). -/
inductive Decode where
  | image (d : Decoded)
  | null (written : Option (Int × Int))
  deriving DecidableEq, Repr

/-- Modelled from the spec: the logging facility of `Logs.h`, which is not
among the sources.  `VERROR` records the message and returns ("logged, not
fatal"). -/
def VERROR (contentPath : String) (w : World) : World :=
  w.log (.VERROR contentPath)

namespace VulkanContext

/-- Modelled from the spec: `VulkanContext::createBuffer`, whose definition is
not among the sources ("allocateBuffer(size, usage, memoryFlags) -> (buffer,
memory)"; a failed allocation is a `DeviceResourceError`). -/
def createBuffer (size : Int) (w : World) : Option (Handle × Handle) × World :=
  if w.outcome then
    (some (w.next, w.next + 1),
      ((((w.consume.fresh 2).create (.buffer w.next)).create (.memory (w.next + 1))).log
        (.createBuffer size (some (w.next, w.next + 1)))))
  else
    (none, w.consume.log (.createBuffer size none))

/-- Modelled from the spec: `VulkanContext::createImage`, whose definition is
not among the sources ("allocateImage(w,h,mipLevels,format,tiling,usage,
memoryFlags) -> (image, memory)"). -/
def createImage (width height : Int) (mipLevels : Nat) (w : World) :
    Option (Handle × Handle) × World :=
  if w.outcome then
    (some (w.next, w.next + 1),
      ((((w.consume.fresh 2).create (.image w.next)).create (.memory (w.next + 1))).log
        (.createImage width height mipLevels (some (w.next, w.next + 1)))))
  else
    (none, w.consume.log (.createImage width height mipLevels none))

/-- Modelled from the spec: `VulkanContext::transitionImageLayout`, which is
declared in a header and defined in a file that are not among the sources. -/
def transitionImageLayout (image : Handle) (oldLayout newLayout : Layout) (mipLevels : Nat)
    (w : World) : World :=
  w.log (.transitionImageLayout image oldLayout newLayout mipLevels)

/-- Modelled from the spec: `VulkanContext::copyBufferToImage`, which is
declared in a header and defined in a file that are not among the sources. -/
def copyBufferToImage (buffer image : Handle) (width height : Int) (w : World) : World :=
  w.log (.copyBufferToImage buffer image width height)

/-- Modelled from the spec: `VulkanContext::generateMipmaps`, whose definition
is not among the sources. -/
def generateMipmaps (image : Handle) (width height : Int) (mipLevels : Nat) (w : World) :
    World :=
  w.log (.generateMipmaps image width height mipLevels)

/-- Modelled from the spec: `VulkanContext::createImageView`, whose definition
is not among the sources ("createImageView(image, format, aspect, mipLevels)
-> view"). -/
def createImageView (image : Handle) (mipLevels : Nat) (w : World) : Option Handle × World :=
  if w.outcome then
    (some w.next,
      (((w.consume.fresh 1).create (.imageView w.next)).log
        (.createImageView image mipLevels (some w.next))))
  else
    (none, w.consume.log (.createImageView image mipLevels none))

end VulkanContext

/-- The call `ImGui_ImplVulkan_AddTexture(sampler, view, layout)`: the UI binding layer
issues a display handle for the pair. -/
def ImGui_ImplVulkan_AddTexture (sampler view : Handle) (layout : Layout) (w : World) :
    Handle × World :=
  (w.next, (w.fresh 1).log (.ImGui_ImplVulkan_AddTexture sampler view layout w.next))

/-! ## `omp::Texture` -/

/-- Modelled from the spec: the state of a newly constructed asset ("created
empty").  Both constructors have an empty body; the member initialisers are in
`Texture.h`, which is not among the sources. -/
def Texture.fresh : Texture :=
  { m_Flags := 0, m_ContentPath := "", m_Pixels := none, m_Width := 0, m_Height := 0,
    m_Size := 0, m_MipLevels := 0, m_TextureSampler := 0, m_TextureImageView := 0,
    m_TextureImage := 0, m_TextureImageMemory := 0, m_Id := 0 }

/-- A device that has not been used yet and on which every creation succeeds. -/
def World.init : World :=
  { calls := [], live := [], next := 1, script := [] }

/-- The value an `int` expression takes when its mathematical value is `x`:
`x` itself within the range of `int`, and its two's complement reduction to 32
bits outside it.  Signed overflow is undefined in C++, so statements on a
value computed with it are made only where `x` is within the range. -/
def toInt32 (x : Int) : Int :=
  (x + 2147483648) % 4294967296 - 2147483648

/-- The expression `static_cast<uint32_t>(std::floor(std::log2(std::max(w, h)))) + 1`.  For
`1 ≤ max w h` the floor of the binary logarithm is `Nat.log2`; the sum is a
`uint32_t`.  For `max w h ≤ 0` the C++ conversion of `-inf` is undefined, and
no statement below rests on the value given here. -/
def mipLevelCount (width height : Int) : Nat :=
  (Nat.log2 (max width height).toNat + 1) % 4294967296

/-- Member function `omp::Texture::destroyVkObjects`. -/
def destroyVkObjects (t : Texture) (w : World) : Res Unit :=
  let w1 := (w.destroy (.sampler t.m_TextureSampler)).log (.vkDestroySampler t.m_TextureSampler)
  let w2 := (w1.destroy (.imageView t.m_TextureImageView)).log
    (.vkDestroyImageView t.m_TextureImageView)
  let w3 := (w2.destroy (.image t.m_TextureImage)).log (.vkDestroyImage t.m_TextureImage)
  let w4 := (w3.destroy (.memory t.m_TextureImageMemory)).log
    (.vkFreeMemory t.m_TextureImageMemory)
  ⟨.returned (), t, w4⟩

/-- Member function `omp::Texture::loadTextureToCpu`; `stbi_load` is the
decoder.  The two multiplications of `m_Width * m_Height * 4` are `int`
multiplications. -/
def loadTextureToCpu (F : FlagBits) (stbi_load : String → Decode) (path : String)
    (t : Texture) (w : World) : Res Unit :=
  let t1 := removeFlags t (F.LoadedToGPU ||| F.LoadedToCPU ||| F.LoadedToUI)
  let t2 := { t1 with m_ContentPath := path }
  let t3 :=
    match stbi_load path with
    | .image d => { t2 with m_Pixels := some d.pixels, m_Width := d.width, m_Height := d.height }
    | .null none => { t2 with m_Pixels := none }
    | .null (some (width, height)) =>
      { t2 with m_Pixels := none, m_Width := width, m_Height := height }
  let t4 := { t3 with m_Size := toInt32 (toInt32 (t3.m_Width * t3.m_Height) * 4) }
  let t5 := { t4 with m_MipLevels := mipLevelCount t4.m_Width t4.m_Height }
  if t5.m_Pixels.isNone then
    ⟨.thrown "Failed to load texture image!", t5, w⟩
  else
    ⟨.returned (), addFlags t5 F.LoadedToCPU, w⟩

/-- Member function `omp::Texture::createSampler`: `maxLod` is `m_MipLevels`; a result other
than `VK_SUCCESS` throws. -/
def createSampler (t : Texture) (w : World) : Res Unit :=
  if w.outcome then
    ⟨.returned (), { t with m_TextureSampler := w.next },
      (((w.consume.fresh 1).create (.sampler w.next)).log
        (.vkCreateSampler t.m_MipLevels (some w.next)))⟩
  else
    ⟨.thrown "Failed to create sampler", t, w.consume.log (.vkCreateSampler t.m_MipLevels none)⟩

/-- Member function `omp::Texture::createImage`. -/
def createImage (t : Texture) (w : World) : Res Unit :=
  match VulkanContext.createBuffer t.m_Size w with
  | (none, w0) => ⟨.thrown "DeviceResourceError", t, w0⟩
  | (some (staging_buffer, staging_buffer_memory), w0) =>
    let w1 := w0.log (.vkMapMemory staging_buffer_memory t.m_Size)
    let w2 := w1.log (.memcpy t.m_Pixels t.m_Size)
    let w3 := w2.log (.vkUnmapMemory staging_buffer_memory)
    let w4 := w3.log (.stbi_image_free t.m_Pixels)
    match VulkanContext.createImage t.m_Width t.m_Height t.m_MipLevels w4 with
    | (none, w5) => ⟨.thrown "DeviceResourceError", t, w5⟩
    | (some (image, memory), w5) =>
      let t1 := { t with m_TextureImage := image, m_TextureImageMemory := memory }
      let w6 := VulkanContext.transitionImageLayout t1.m_TextureImage .UNDEFINED
        .TRANSFER_DST_OPTIMAL t1.m_MipLevels w5
      let w7 := VulkanContext.copyBufferToImage staging_buffer t1.m_TextureImage t1.m_Width
        t1.m_Height w6
      let w8 := VulkanContext.generateMipmaps t1.m_TextureImage t1.m_Width t1.m_Height
        t1.m_MipLevels w7
      let w9 := (w8.destroy (.buffer staging_buffer)).log (.vkDestroyBuffer staging_buffer)
      let w10 := (w9.destroy (.memory staging_buffer_memory)).log
        (.vkFreeMemory staging_buffer_memory)
      ⟨.returned (), t1, w10⟩

/-- Member function `omp::Texture::createImageView`. -/
def createImageView (t : Texture) (w : World) : Res Unit :=
  match VulkanContext.createImageView t.m_TextureImage t.m_MipLevels w with
  | (none, w1) => ⟨.thrown "DeviceResourceError", t, w1⟩
  | (some view, w1) => ⟨.returned (), { t with m_TextureImageView := view }, w1⟩

/-- Member function `omp::Texture::loadToGpu`. -/
def loadToGpu (F : FlagBits) (t : Texture) (w : World) : Res Unit :=
  if hasFlags t F.LoadedToGPU then
    ⟨.returned (), t, w⟩
  else
    let w1 := if !hasFlags t F.LoadedToCPU then VERROR t.m_ContentPath w else w
    (createSampler t w1).andThen fun _ t2 w2 =>
      (createImage t2 w2).andThen fun _ t3 w3 =>
        (createImageView t3 w3).andThen fun _ t4 w4 =>
          ⟨.returned (), addFlags t4 F.LoadedToGPU, w4⟩

/-- Member function `omp::Texture::fullLoad`. -/
def fullLoad (F : FlagBits) (stbi_load : String → Decode) (path : String)
    (t : Texture) (w : World) : Res Unit :=
  (if hasFlags t F.LoadedToGPU then destroyVkObjects t w else ⟨.returned (), t, w⟩).andThen
    fun _ t1 w1 =>
      (loadTextureToCpu F stbi_load path t1 w1).andThen fun _ t2 w2 => loadToGpu F t2 w2

/-- Member function `omp::Texture::lazyLoad`. -/
def lazyLoad (F : FlagBits) (stbi_load : String → Decode) (path : String)
    (t : Texture) (w : World) : Res Unit :=
  loadTextureToCpu F stbi_load path t w

/-- Member function `omp::Texture::loadToUi`. -/
def loadToUi (F : FlagBits) (t : Texture) (w : World) : Res Unit :=
  (if !hasFlags t F.LoadedToGPU then loadToGpu F t w else ⟨.returned (), t, w⟩).andThen
    fun _ t1 w1 =>
      let r := ImGui_ImplVulkan_AddTexture t1.m_TextureSampler t1.m_TextureImageView
        .SHADER_READ_ONLY_OPTIMAL w1
      ⟨.returned (), addFlags { t1 with m_Id := r.1 } F.LoadedToUI, r.2⟩

/-- Member function `omp::Texture::getTextureId`. -/
def getTextureId (F : FlagBits) (t : Texture) (w : World) : Res Nat :=
  (if !hasFlags t F.LoadedToUI then loadToUi F t w else ⟨.returned (), t, w⟩).andThen
    fun _ t1 w1 => ⟨.returned t1.m_Id, t1, w1⟩

/-- Member function `omp::Texture::getImageView`. -/
def getImageView (F : FlagBits) (t : Texture) (w : World) : Res Handle :=
  (if !hasFlags t F.LoadedToGPU then loadToGpu F t w else ⟨.returned (), t, w⟩).andThen
    fun _ t1 w1 => ⟨.returned t1.m_TextureImageView, t1, w1⟩

/-- Member function `omp::Texture::getImage`. -/
def getImage (F : FlagBits) (t : Texture) (w : World) : Res Handle :=
  (if !hasFlags t F.LoadedToGPU then loadToGpu F t w else ⟨.returned (), t, w⟩).andThen
    fun _ t1 w1 => ⟨.returned t1.m_TextureImage, t1, w1⟩

/-- Member function `omp::Texture::getSampler`. -/
def getSampler (F : FlagBits) (t : Texture) (w : World) : Res Handle :=
  (if !hasFlags t F.LoadedToGPU then loadToGpu F t w else ⟨.returned (), t, w⟩).andThen
    fun _ t1 w1 => ⟨.returned t1.m_TextureSampler, t1, w1⟩

/-! ## Sequences of operations and observations on the call log -/

/-- The public operations of an asset. -/
inductive Op where
  | loadTextureToCpu (path : String)
  | lazyLoad (path : String)
  | fullLoad (path : String)
  | loadToGpu
  | loadToUi
  | getTextureId
  | getImage
  | getImageView
  | getSampler
  deriving DecidableEq, Repr

/-- One operation on the asset; an exception is caught by the caller, who keeps
the asset as the operation left it. -/
def step (F : FlagBits) (stbi_load : String → Decode) (op : Op) (t : Texture)
    (w : World) : Texture × World :=
  match op with
  | .loadTextureToCpu path =>
    ((loadTextureToCpu F stbi_load path t w).tex, (loadTextureToCpu F stbi_load path t w).world)
  | .lazyLoad path =>
    ((lazyLoad F stbi_load path t w).tex, (lazyLoad F stbi_load path t w).world)
  | .fullLoad path =>
    ((fullLoad F stbi_load path t w).tex, (fullLoad F stbi_load path t w).world)
  | .loadToGpu => ((loadToGpu F t w).tex, (loadToGpu F t w).world)
  | .loadToUi => ((loadToUi F t w).tex, (loadToUi F t w).world)
  | .getTextureId => ((getTextureId F t w).tex, (getTextureId F t w).world)
  | .getImage => ((getImage F t w).tex, (getImage F t w).world)
  | .getImageView => ((getImageView F t w).tex, (getImageView F t w).world)
  | .getSampler => ((getSampler F t w).tex, (getSampler F t w).world)

/-- A sequence of operations, first to last. -/
def run (F : FlagBits) (stbi_load : String → Decode) :
    List Op → Texture → World → Texture × World
  | [], t, w => (t, w)
  | op :: ops, t, w => run F stbi_load ops (step F stbi_load op t w).1 (step F stbi_load op t w).2

/-- The asset's image, image view and sampler are all live device objects. -/
def GpuObjectsLive (t : Texture) (w : World) : Prop :=
  DevObj.image t.m_TextureImage ∈ w.live ∧ DevObj.imageView t.m_TextureImageView ∈ w.live ∧
    DevObj.sampler t.m_TextureSampler ∈ w.live

instance (t : Texture) (w : World) : Decidable (GpuObjectsLive t w) := by
  unfold GpuObjectsLive
  infer_instance

/-- The asset's sampler, image view, image and image memory are all live
device objects. -/
def OwnsLive (t : Texture) (w : World) : Prop :=
  GpuObjectsLive t w ∧ DevObj.memory t.m_TextureImageMemory ∈ w.live

instance (t : Texture) (w : World) : Decidable (OwnsLive t w) := by
  unfold OwnsLive
  infer_instance

/-- The stored display handle was issued by the UI binding layer for the
asset's current sampler and image view. -/
def Registered (t : Texture) (w : World) : Prop :=
  Call.ImGui_ImplVulkan_AddTexture t.m_TextureSampler t.m_TextureImageView
    .SHADER_READ_ONLY_OPTIMAL t.m_Id ∈ w.calls

instance (t : Texture) (w : World) : Decidable (Registered t w) := by
  unfold Registered
  infer_instance

/-- What the flags promise: a GPU-resident asset owns live objects, and an
asset registered with the UI layer is GPU-resident and holds a handle issued
for its current sampler and view. -/
def Consistent (F : FlagBits) (t : Texture) (w : World) : Prop :=
  (hasFlags t F.LoadedToGPU = true → OwnsLive t w) ∧
  (hasFlags t F.LoadedToUI = true → hasFlags t F.LoadedToGPU = true ∧ Registered t w)

/-- The order of section 4.2 of the specification, for an asset `t` and a
device whose next handle is `n`: create sampler; allocate staging buffer; map,
copy pixels, unmap; release the host pixel buffer; allocate the device image;
transition undefined to transfer-destination; copy buffer to image; generate
mipmaps; destroy the staging buffer and free its memory; create the image
view. -/
def pipelineOrder (t : Texture) (n : Handle) : List Call :=
  [ .vkCreateSampler t.m_MipLevels (some n),
    .createBuffer t.m_Size (some (n + 1, n + 2)),
    .vkMapMemory (n + 2) t.m_Size,
    .memcpy t.m_Pixels t.m_Size,
    .vkUnmapMemory (n + 2),
    .stbi_image_free t.m_Pixels,
    .createImage t.m_Width t.m_Height t.m_MipLevels (some (n + 3, n + 4)),
    .transitionImageLayout (n + 3) .UNDEFINED .TRANSFER_DST_OPTIMAL t.m_MipLevels,
    .copyBufferToImage (n + 1) (n + 3) t.m_Width t.m_Height,
    .generateMipmaps (n + 3) t.m_Width t.m_Height t.m_MipLevels,
    .vkDestroyBuffer (n + 1),
    .vkFreeMemory (n + 2),
    .createImageView (n + 3) t.m_MipLevels (some (n + 5)) ]

/-- Is the call the first step of the upload pipeline? -/
def Call.startsUpload : Call → Bool
  | .vkCreateSampler _ _ => true
  | _ => false

/-- Is the call a registration with the UI binding layer? -/
def Call.registersTexture : Call → Bool
  | .ImGui_ImplVulkan_AddTexture _ _ _ _ => true
  | _ => false

/-- Call-count probe: how many runs of the upload pipeline were started. -/
def World.uploadRuns (w : World) : Nat :=
  w.calls.countP Call.startsUpload

/-- Call-count probe: how many registrations the UI binding layer received. -/
def World.registrations (w : World) : Nat :=
  w.calls.countP Call.registersTexture

/-! ## Lemmas on the flag word -/

theorem hasFlags_iff (t : Texture) (f : Nat) :
    hasFlags t f = true ↔ ∃ i, i < 16 ∧ t.m_Flags.testBit i = true ∧ f.testBit i = true := by
  have h16 : (65536 : Nat) = 2 ^ 16 := by norm_num
  unfold hasFlags
  rw [bne_iff_ne, h16]
  constructor
  · intro h
    obtain ⟨i, hi⟩ := Nat.ne_zero_implies_bit_true h
    rw [Nat.testBit_and, Nat.testBit_mod_two_pow] at hi
    simp only [Bool.and_eq_true, decide_eq_true_eq] at hi
    exact ⟨i, hi.2.1, hi.1, hi.2.2⟩
  · rintro ⟨i, hi, hm, hf⟩ h0
    have : (t.m_Flags &&& f % 2 ^ 16).testBit i = true := by
      rw [Nat.testBit_and, Nat.testBit_mod_two_pow]
      simp [hi, hm, hf]
    rw [h0] at this
    simp at this

theorem hasFlags_eq_false_iff (t : Texture) (f : Nat) :
    hasFlags t f = false ↔ ∀ i, i < 16 → t.m_Flags.testBit i = true → f.testBit i = false := by
  rw [← Bool.not_eq_true, hasFlags_iff]
  constructor
  · intro h i hi hm
    by_contra hf
    exact h ⟨i, hi, hm, by simpa using hf⟩
  · rintro h ⟨i, hi, hm, hf⟩
    rw [h i hi hm] at hf
    exact Bool.false_ne_true hf

theorem testBit_removeFlags (t : Texture) (f i : Nat) :
    (removeFlags t f).m_Flags.testBit i =
      (decide (i < 16) && (t.m_Flags.testBit i && !f.testBit i)) := by
  have h16 : (65536 : Nat) = 2 ^ 16 := by norm_num
  simp only [removeFlags, h16, Nat.testBit_mod_two_pow, Nat.testBit_and, Nat.testBit_xor]
  by_cases hi : i < 16 <;> cases t.m_Flags.testBit i <;> cases f.testBit i <;> simp [hi]

theorem testBit_addFlags (t : Texture) (f i : Nat) :
    (addFlags t f).m_Flags.testBit i =
      (decide (i < 16) && (t.m_Flags.testBit i || f.testBit i)) := by
  have h16 : (65536 : Nat) = 2 ^ 16 := by norm_num
  simp only [addFlags, h16, Nat.testBit_mod_two_pow, Nat.testBit_or]
  by_cases hi : i < 16 <;> cases t.m_Flags.testBit i <;> cases f.testBit i <;> simp [hi]

theorem testBit_of_lt_65536 {m : Nat} (hm : m < 65536) {i : Nat} (h : m.testBit i = true) :
    i < 16 := by
  by_contra hi
  have h2 : m < 2 ^ i := lt_of_lt_of_le hm
    (by
      have : (65536 : Nat) = 2 ^ 16 := by norm_num
      rw [this]
      exact Nat.pow_le_pow_right (by norm_num) (by omega))
  rw [Nat.testBit_lt_two_pow h2] at h
  exact Bool.false_ne_true h

theorem hasFlags_congr {t1 t2 : Texture} (h : t1.m_Flags = t2.m_Flags) (f : Nat) :
    hasFlags t1 f = hasFlags t2 f := by
  simp [hasFlags, h]

theorem hasFlags_addFlags_self (t : Texture) {f : Nat} (hf : f < 65536) (h0 : f ≠ 0) :
    hasFlags (addFlags t f) f = true := by
  obtain ⟨i, hi⟩ := Nat.ne_zero_implies_bit_true h0
  rw [hasFlags_iff]
  refine ⟨i, testBit_of_lt_65536 hf hi, ?_, hi⟩
  rw [testBit_addFlags, hi]
  simp [testBit_of_lt_65536 hf hi]

theorem hasFlags_addFlags_of_disjoint (t : Texture) {a b : Nat} (h : a &&& b = 0) :
    hasFlags (addFlags t a) b = hasFlags t b := by
  have hab : ∀ i, a.testBit i = true → b.testBit i = true → False := by
    intro i ha hb
    have : (a &&& b).testBit i = true := by rw [Nat.testBit_and, ha, hb]; rfl
    rw [h] at this
    simp at this
  rw [Bool.eq_iff_iff, hasFlags_iff, hasFlags_iff]
  constructor
  · rintro ⟨i, hi, hm, hb⟩
    rw [testBit_addFlags] at hm
    simp only [Bool.and_eq_true, Bool.or_eq_true, decide_eq_true_eq] at hm
    rcases hm.2 with h1 | h1
    · exact ⟨i, hi, h1, hb⟩
    · exact (hab i h1 hb).elim
  · rintro ⟨i, hi, hm, hb⟩
    refine ⟨i, hi, ?_, hb⟩
    rw [testBit_addFlags]
    simp [hi, hm]

theorem hasFlags_removeFlags_of_sub (t : Texture) {f g : Nat}
    (h : ∀ i, g.testBit i = true → f.testBit i = true) :
    hasFlags (removeFlags t f) g = false := by
  rw [hasFlags_eq_false_iff]
  intro i _ hm
  rw [testBit_removeFlags] at hm
  simp only [Bool.and_eq_true, Bool.not_eq_true', decide_eq_true_eq] at hm
  by_contra hg
  have := h i (by simpa using hg)
  rw [hm.2.2] at this
  exact Bool.false_ne_true this

theorem and_comm_zero {a b : Nat} (h : a &&& b = 0) : b &&& a = 0 := by
  rw [Nat.and_comm]
  exact h

/-- Clearing the three residency bits leaves none of them set. -/
theorem hasFlags_removeFlags_all (F : FlagBits) (t : Texture) :
    hasFlags (removeFlags t (F.LoadedToGPU ||| F.LoadedToCPU ||| F.LoadedToUI)) F.LoadedToGPU
        = false ∧
    hasFlags (removeFlags t (F.LoadedToGPU ||| F.LoadedToCPU ||| F.LoadedToUI)) F.LoadedToCPU
        = false ∧
    hasFlags (removeFlags t (F.LoadedToGPU ||| F.LoadedToCPU ||| F.LoadedToUI)) F.LoadedToUI
        = false := by
  refine ⟨hasFlags_removeFlags_of_sub t ?_, hasFlags_removeFlags_of_sub t ?_,
    hasFlags_removeFlags_of_sub t ?_⟩ <;>
  · intro i hi
    simp [Nat.testBit_or, hi]

/-! ## Lemmas on the device and on the upload -/

theorem andThen_returned {α β : Type} {r : Res α} {k : α → Texture → World → Res β} {b : β}
    (h : (r.andThen k).out = .returned b) :
    ∃ a, r.out = .returned a ∧ r.andThen k = k a r.tex r.world := by
  unfold Res.andThen at h ⊢
  cases hr : r.out with
  | returned a => exact ⟨a, rfl, by simp⟩
  | thrown e => simp [hr] at h

theorem headD_of_allTrue {s : List Bool} (h : ∀ b ∈ s, b = true) : s.headD true = true := by
  cases s with
  | nil => rfl
  | cons a s => exact h a (List.mem_cons_self a s)

theorem allTrue_tail {s : List Bool} (h : ∀ b ∈ s, b = true) : ∀ b ∈ s.tail, b = true :=
  fun b hb => h b (List.mem_of_mem_tail hb)

theorem createSampler_ok (t : Texture) (w : World) (h0 : w.outcome = true) :
    createSampler t w =
      ⟨.returned (), { t with m_TextureSampler := w.next },
        { calls := w.calls ++ [.vkCreateSampler t.m_MipLevels (some w.next)],
          live := .sampler w.next :: w.live,
          next := w.next + 1,
          script := w.script.tail }⟩ := by
  simp [createSampler, h0, World.consume, World.fresh, World.create, World.log]

theorem createImage_ok (t : Texture) (w : World) (h0 : w.outcome = true)
    (h1 : w.script.tail.headD true = true) :
    createImage t w =
      ⟨.returned (), { t with m_TextureImage := w.next + 2, m_TextureImageMemory := w.next + 3 },
        { calls := w.calls ++
            [ .createBuffer t.m_Size (some (w.next, w.next + 1)),
              .vkMapMemory (w.next + 1) t.m_Size,
              .memcpy t.m_Pixels t.m_Size,
              .vkUnmapMemory (w.next + 1),
              .stbi_image_free t.m_Pixels,
              .createImage t.m_Width t.m_Height t.m_MipLevels (some (w.next + 2, w.next + 3)),
              .transitionImageLayout (w.next + 2) .UNDEFINED .TRANSFER_DST_OPTIMAL t.m_MipLevels,
              .copyBufferToImage w.next (w.next + 2) t.m_Width t.m_Height,
              .generateMipmaps (w.next + 2) t.m_Width t.m_Height t.m_MipLevels,
              .vkDestroyBuffer w.next,
              .vkFreeMemory (w.next + 1) ],
          live := .memory (w.next + 3) :: .image (w.next + 2) :: w.live,
          next := w.next + 4,
          script := w.script.tail.tail }⟩ := by
  have h1' : ∀ (c : List Call) (l : List DevObj) (n : Handle),
      World.outcome { calls := c, live := l, next := n, script := w.script.tail } = true :=
    fun _ _ _ => h1
  simp [createImage, VulkanContext.createBuffer, VulkanContext.createImage,
    VulkanContext.transitionImageLayout, VulkanContext.copyBufferToImage,
    VulkanContext.generateMipmaps, h0, h1', World.consume, World.fresh, World.create,
    World.destroy, World.log]

theorem createImageView_ok (t : Texture) (w : World) (h0 : w.outcome = true) :
    createImageView t w =
      ⟨.returned (), { t with m_TextureImageView := w.next },
        { calls := w.calls ++ [.createImageView t.m_TextureImage t.m_MipLevels (some w.next)],
          live := .imageView w.next :: w.live,
          next := w.next + 1,
          script := w.script.tail }⟩ := by
  simp [createImageView, VulkanContext.createImageView, h0, World.consume, World.fresh,
    World.create, World.log]

/-- A call of `createSampler` that returns was granted its sampler. -/
theorem createSampler_returned (t : Texture) (w : World) (u : Unit)
    (h : (createSampler t w).out = .returned u) : w.outcome = true := by
  by_contra h0
  simp [createSampler, h0] at h

/-- A call of `createImage` that returns was granted its buffer and its image. -/
theorem createImage_returned (t : Texture) (w : World) (u : Unit)
    (h : (createImage t w).out = .returned u) :
    w.outcome = true ∧ w.script.tail.headD true = true := by
  by_cases h0 : w.outcome = true
  · refine ⟨h0, ?_⟩
    by_contra h1
    have h1' : ∀ (c : List Call) (l : List DevObj) (n : Handle),
        World.outcome { calls := c, live := l, next := n, script := w.script.tail } = false :=
      fun _ _ _ => by simpa [World.outcome] using h1
    simp [createImage, VulkanContext.createBuffer, VulkanContext.createImage, h0, h1',
      World.consume, World.fresh, World.create, World.destroy, World.log] at h
  · simp [createImage, VulkanContext.createBuffer, h0] at h

/-- A call of `createImageView` that returns was granted its view. -/
theorem createImageView_returned (t : Texture) (w : World) (u : Unit)
    (h : (createImageView t w).out = .returned u) : w.outcome = true := by
  by_contra h0
  simp [createImageView, VulkanContext.createImageView, h0] at h

/-- The three creation steps of `loadToGpu`, the four creations being granted. -/
theorem upload_run_of (F : FlagBits) (t : Texture) (w : World)
    (h0 : w.script.headD true = true) (h1 : w.script.tail.headD true = true)
    (h2 : w.script.tail.tail.headD true = true)
    (h3 : w.script.tail.tail.tail.headD true = true) :
    ((createSampler t w).andThen fun _ t2 w2 =>
      (createImage t2 w2).andThen fun _ t3 w3 =>
        (createImageView t3 w3).andThen fun _ t4 w4 =>
          (⟨.returned (), addFlags t4 F.LoadedToGPU, w4⟩ : Res Unit)) =
      ⟨.returned (),
        addFlags { t with m_TextureSampler := w.next, m_TextureImage := w.next + 3,
                          m_TextureImageMemory := w.next + 4,
                          m_TextureImageView := w.next + 5 } F.LoadedToGPU,
        { calls := w.calls ++ pipelineOrder t w.next,
          live := .imageView (w.next + 5) :: .memory (w.next + 4) :: .image (w.next + 3) ::
            .sampler w.next :: w.live,
          next := w.next + 6,
          script := w.script.tail.tail.tail.tail }⟩ := by
  rw [createSampler_ok t w h0]
  simp only [Res.andThen]
  rw [createImage_ok _ _ (by exact h1) (by exact h2)]
  dsimp only
  rw [createImageView_ok _ _ (by exact h3)]
  simp [pipelineOrder, addFlags, Nat.add_assoc]

/-- The three creation steps of `loadToGpu` return only if the four creations
were granted. -/
theorem upload_returned (F : FlagBits) (t : Texture) (w : World) (u : Unit)
    (h : ((createSampler t w).andThen fun _ t2 w2 =>
      (createImage t2 w2).andThen fun _ t3 w3 =>
        (createImageView t3 w3).andThen fun _ t4 w4 =>
          (⟨.returned (), addFlags t4 F.LoadedToGPU, w4⟩ : Res Unit)).out = .returned u) :
    w.script.headD true = true ∧ w.script.tail.headD true = true ∧
      w.script.tail.tail.headD true = true ∧ w.script.tail.tail.tail.headD true = true := by
  obtain ⟨a1, r1, e1⟩ := andThen_returned h
  have h0 : w.outcome = true := createSampler_returned t w a1 r1
  rw [e1] at h
  rw [createSampler_ok t w h0] at h
  dsimp only at h
  obtain ⟨a2, r2, e2⟩ := andThen_returned h
  have h12 := createImage_returned _ _ a2 r2
  rw [e2] at h
  rw [createImage_ok _ _ h12.1 h12.2] at h
  dsimp only at h
  obtain ⟨a3, r3, _⟩ := andThen_returned h
  exact ⟨h0, h12.1, h12.2, createImageView_returned _ _ a3 r3⟩

theorem upload_run (F : FlagBits) (t : Texture) (w : World) (hw : w.Healthy) :
    ((createSampler t w).andThen fun _ t2 w2 =>
      (createImage t2 w2).andThen fun _ t3 w3 =>
        (createImageView t3 w3).andThen fun _ t4 w4 =>
          (⟨.returned (), addFlags t4 F.LoadedToGPU, w4⟩ : Res Unit)) =
      ⟨.returned (),
        addFlags { t with m_TextureSampler := w.next, m_TextureImage := w.next + 3,
                          m_TextureImageMemory := w.next + 4,
                          m_TextureImageView := w.next + 5 } F.LoadedToGPU,
        { calls := w.calls ++ pipelineOrder t w.next,
          live := .imageView (w.next + 5) :: .memory (w.next + 4) :: .image (w.next + 3) ::
            .sampler w.next :: w.live,
          next := w.next + 6,
          script := w.script.tail.tail.tail.tail }⟩ :=
  upload_run_of F t w (headD_of_allTrue hw) (headD_of_allTrue (allTrue_tail hw))
    (headD_of_allTrue (allTrue_tail (allTrue_tail hw)))
    (headD_of_allTrue (allTrue_tail (allTrue_tail (allTrue_tail hw))))

/-! ## Lemmas on the operations -/

/-- What `loadToGpu` does on an asset that is not GPU-resident when the four
creations are granted. -/
theorem loadToGpu_run_of (F : FlagBits) (t : Texture) (w : World)
    (hg : hasFlags t F.LoadedToGPU = false)
    (h0 : w.script.headD true = true) (h1 : w.script.tail.headD true = true)
    (h2 : w.script.tail.tail.headD true = true)
    (h3 : w.script.tail.tail.tail.headD true = true) :
    loadToGpu F t w =
      ⟨.returned (),
        addFlags { t with m_TextureSampler := w.next, m_TextureImage := w.next + 3,
                          m_TextureImageMemory := w.next + 4,
                          m_TextureImageView := w.next + 5 } F.LoadedToGPU,
        { calls := (if hasFlags t F.LoadedToCPU then w.calls
                    else w.calls ++ [.VERROR t.m_ContentPath]) ++ pipelineOrder t w.next,
          live := .imageView (w.next + 5) :: .memory (w.next + 4) :: .image (w.next + 3) ::
            .sampler w.next :: w.live,
          next := w.next + 6,
          script := w.script.tail.tail.tail.tail }⟩ := by
  unfold loadToGpu
  rw [if_neg (by simp [hg])]
  by_cases hc : hasFlags t F.LoadedToCPU = true
  · simp only [hc, Bool.not_true, Bool.false_eq_true, if_false, if_true]
    exact upload_run_of F t w h0 h1 h2 h3
  · simp only [hc, Bool.not_eq_true] at *
    simp only [hc, Bool.not_false, if_true]
    rw [upload_run_of F t _ (by exact h0) (by exact h1) (by exact h2) (by exact h3)]
    simp [VERROR, World.log]

/-- What one call of `loadToGpu` does on an asset that is not GPU-resident, on a
device whose creation calls succeed. -/
theorem loadToGpu_run (F : FlagBits) (t : Texture) (w : World)
    (hg : hasFlags t F.LoadedToGPU = false) (hw : w.Healthy) :
    loadToGpu F t w =
      ⟨.returned (),
        addFlags { t with m_TextureSampler := w.next, m_TextureImage := w.next + 3,
                          m_TextureImageMemory := w.next + 4,
                          m_TextureImageView := w.next + 5 } F.LoadedToGPU,
        { calls := (if hasFlags t F.LoadedToCPU then w.calls
                    else w.calls ++ [.VERROR t.m_ContentPath]) ++ pipelineOrder t w.next,
          live := .imageView (w.next + 5) :: .memory (w.next + 4) :: .image (w.next + 3) ::
            .sampler w.next :: w.live,
          next := w.next + 6,
          script := w.script.tail.tail.tail.tail }⟩ :=
  loadToGpu_run_of F t w hg (headD_of_allTrue hw) (headD_of_allTrue (allTrue_tail hw))
    (headD_of_allTrue (allTrue_tail (allTrue_tail hw)))
    (headD_of_allTrue (allTrue_tail (allTrue_tail (allTrue_tail hw))))

/-- A call of `loadToGpu` on an asset that is not GPU-resident returns only
after a complete pipeline run. -/
theorem loadToGpu_returned_eq (F : FlagBits) (t : Texture) (w : World) (u : Unit)
    (hg : hasFlags t F.LoadedToGPU = false) (h : (loadToGpu F t w).out = .returned u) :
    loadToGpu F t w =
      ⟨.returned (),
        addFlags { t with m_TextureSampler := w.next, m_TextureImage := w.next + 3,
                          m_TextureImageMemory := w.next + 4,
                          m_TextureImageView := w.next + 5 } F.LoadedToGPU,
        { calls := (if hasFlags t F.LoadedToCPU then w.calls
                    else w.calls ++ [.VERROR t.m_ContentPath]) ++ pipelineOrder t w.next,
          live := .imageView (w.next + 5) :: .memory (w.next + 4) :: .image (w.next + 3) ::
            .sampler w.next :: w.live,
          next := w.next + 6,
          script := w.script.tail.tail.tail.tail }⟩ := by
  have h' := h
  unfold loadToGpu at h'
  rw [if_neg (by simp [hg])] at h'
  dsimp only at h'
  have hs := upload_returned F t _ u h'
  have hscript : (if (!hasFlags t F.LoadedToCPU) = true then VERROR t.m_ContentPath w
      else w).script = w.script := by
    split_ifs <;> rfl
  rw [hscript] at hs
  exact loadToGpu_run_of F t w hg hs.1 hs.2.1 hs.2.2.1 hs.2.2.2

/-- A call of `loadToGpu` that returns leaves the GPU-resident flag set. -/
theorem loadToGpu_returned (F : FlagBits) (hF : F.Independent) (t : Texture) (w : World)
    (u : Unit) (h : (loadToGpu F t w).out = .returned u) :
    hasFlags (loadToGpu F t w).tex F.LoadedToGPU = true := by
  by_cases hg : hasFlags t F.LoadedToGPU = true
  · unfold loadToGpu
    simp [hg]
  · rw [loadToGpu_returned_eq F t w u (by simpa using hg) h]
    exact hasFlags_addFlags_self _ hF.1.1 hF.2.1.1

theorem createSampler_flags (t : Texture) (w : World) :
    (createSampler t w).tex.m_Flags = t.m_Flags := by
  unfold createSampler
  split_ifs <;> rfl

theorem createImage_flags (t : Texture) (w : World) :
    (createImage t w).tex.m_Flags = t.m_Flags := by
  unfold createImage
  split
  · rfl
  · dsimp only
    split <;> rfl

theorem createImageView_flags (t : Texture) (w : World) :
    (createImageView t w).tex.m_Flags = t.m_Flags := by
  unfold createImageView
  split <;> rfl

theorem andThen_tex_cases {α β : Type} (r : Res α) (k : α → Texture → World → Res β) :
    (r.andThen k).tex = r.tex ∨ ∃ a, (r.andThen k).tex = (k a r.tex r.world).tex := by
  unfold Res.andThen
  cases r.out with
  | returned a => exact Or.inr ⟨a, rfl⟩
  | thrown e => exact Or.inl rfl

/-- A call of `loadToGpu` that throws leaves the flag word as it was. -/
theorem loadToGpu_thrown_flags (F : FlagBits) (t : Texture) (w : World) (e : String)
    (h : (loadToGpu F t w).out = .thrown e) :
    (loadToGpu F t w).tex.m_Flags = t.m_Flags := by
  unfold loadToGpu at h ⊢
  by_cases hg : hasFlags t F.LoadedToGPU = true
  · rw [if_pos hg]
  · rw [if_neg hg] at h ⊢
    dsimp only at h ⊢
    generalize (if (!hasFlags t F.LoadedToCPU) = true then VERROR t.m_ContentPath w else w) = w1
      at h ⊢
    simp only [Res.andThen] at h ⊢
    cases h1 : (createSampler t w1).out with
    | thrown e => exact createSampler_flags t w1
    | returned a =>
      rw [h1] at h
      dsimp only at h ⊢
      cases h2 : (createImage (createSampler t w1).tex (createSampler t w1).world).out with
      | thrown e =>
        dsimp only
        rw [createImage_flags, createSampler_flags]
      | returned a =>
        rw [h2] at h
        dsimp only at h ⊢
        cases h3 : (createImageView
          (createImage (createSampler t w1).tex (createSampler t w1).world).tex
          (createImage (createSampler t w1).tex (createSampler t w1).world).world).out with
        | thrown e =>
          dsimp only
          rw [createImageView_flags, createImage_flags, createSampler_flags]
        | returned a =>
          rw [h3] at h
          simp at h

/-- Whatever its outcome, `loadToGpu` leaves the flag word as it was or with
the GPU-resident bits added. -/
theorem loadToGpu_flags (F : FlagBits) (t : Texture) (w : World) :
    (loadToGpu F t w).tex.m_Flags = t.m_Flags ∨
      (loadToGpu F t w).tex.m_Flags = (addFlags t F.LoadedToGPU).m_Flags := by
  cases h : (loadToGpu F t w).out with
  | thrown e => exact Or.inl (loadToGpu_thrown_flags F t w e h)
  | returned u =>
    by_cases hg : hasFlags t F.LoadedToGPU = true
    · left
      unfold loadToGpu
      rw [if_pos hg]
    · right
      rw [loadToGpu_returned_eq F t w u (by simpa using hg) h]
      rfl

/-- Whatever its outcome, `loadToGpu` leaves the UI-registered flag as it was. -/
theorem loadToGpu_keeps_ui (F : FlagBits) (hF : F.Independent) (t : Texture) (w : World) :
    hasFlags (loadToGpu F t w).tex F.LoadedToUI = hasFlags t F.LoadedToUI := by
  rcases loadToGpu_flags F t w with h | h
  · exact hasFlags_congr h _
  · rw [hasFlags_congr h, hasFlags_addFlags_of_disjoint _ hF.2.2.2.1]

/-- What `loadTextureToCpu` does when the decoder returns an image. -/
theorem loadTextureToCpu_ok (F : FlagBits) (stbi_load : String → Decode)
    (path : String) (t : Texture) (w : World) (d : Decoded) (hd : stbi_load path = .image d) :
    loadTextureToCpu F stbi_load path t w =
      ⟨.returned (),
        addFlags
          { removeFlags t (F.LoadedToGPU ||| F.LoadedToCPU ||| F.LoadedToUI) with
            m_ContentPath := path, m_Pixels := some d.pixels, m_Width := d.width,
            m_Height := d.height, m_Size := toInt32 (toInt32 (d.width * d.height) * 4),
            m_MipLevels := mipLevelCount d.width d.height } F.LoadedToCPU, w⟩ := by
  simp [loadTextureToCpu, hd, removeFlags]

/-- After a successful `loadTextureToCpu` the asset is CPU-resident, not
GPU-resident and not registered with the UI layer. -/
theorem loadTextureToCpu_ok_flags (F : FlagBits) (hF : F.Independent)
    (stbi_load : String → Decode) (path : String) (t : Texture) (w : World)
    (d : Decoded) (hd : stbi_load path = .image d) :
    hasFlags (loadTextureToCpu F stbi_load path t w).tex F.LoadedToCPU = true ∧
    hasFlags (loadTextureToCpu F stbi_load path t w).tex F.LoadedToGPU = false ∧
    hasFlags (loadTextureToCpu F stbi_load path t w).tex F.LoadedToUI = false := by
  rw [loadTextureToCpu_ok F stbi_load path t w d hd]
  have h := hasFlags_removeFlags_all F t
  refine ⟨hasFlags_addFlags_self _ hF.1.2.1 hF.2.1.2.1, ?_, ?_⟩
  · rw [hasFlags_addFlags_of_disjoint _ (and_comm_zero hF.2.2.1), ← h.1]
    exact hasFlags_congr rfl _
  · rw [hasFlags_addFlags_of_disjoint _ hF.2.2.2.2, ← h.2.2]
    exact hasFlags_congr rfl _

/-- What `loadTextureToCpu` does when the decoder returns a null pointer. -/
theorem loadTextureToCpu_null (F : FlagBits) (stbi_load : String → Decode)
    (path : String) (t : Texture) (w : World) (written : Option (Int × Int))
    (hd : stbi_load path = .null written) :
    (loadTextureToCpu F stbi_load path t w).out = .thrown "Failed to load texture image!" ∧
    (loadTextureToCpu F stbi_load path t w).world = w ∧
    (loadTextureToCpu F stbi_load path t w).tex.m_Flags =
      (removeFlags t (F.LoadedToGPU ||| F.LoadedToCPU ||| F.LoadedToUI)).m_Flags ∧
    (loadTextureToCpu F stbi_load path t w).tex.m_Pixels = none ∧
    (loadTextureToCpu F stbi_load path t w).tex.m_ContentPath = path ∧
    (loadTextureToCpu F stbi_load path t w).tex.m_Width = (written.map Prod.fst).getD t.m_Width ∧
    (loadTextureToCpu F stbi_load path t w).tex.m_Height =
      (written.map Prod.snd).getD t.m_Height ∧
    (loadTextureToCpu F stbi_load path t w).tex.m_TextureSampler = t.m_TextureSampler ∧
    (loadTextureToCpu F stbi_load path t w).tex.m_TextureImageView = t.m_TextureImageView ∧
    (loadTextureToCpu F stbi_load path t w).tex.m_TextureImage = t.m_TextureImage ∧
    (loadTextureToCpu F stbi_load path t w).tex.m_TextureImageMemory =
      t.m_TextureImageMemory := by
  cases written with
  | none => simp [loadTextureToCpu, hd, removeFlags]
  | some p =>
    obtain ⟨a, b⟩ := p
    simp [loadTextureToCpu, hd, removeFlags]

/-- Whatever its outcome, `loadTextureToCpu` leaves the asset neither
GPU-resident nor registered with the UI layer. -/
theorem loadTextureToCpu_clears (F : FlagBits) (hF : F.Independent)
    (stbi_load : String → Decode) (path : String) (t : Texture) (w : World) :
    hasFlags (loadTextureToCpu F stbi_load path t w).tex F.LoadedToGPU = false ∧
    hasFlags (loadTextureToCpu F stbi_load path t w).tex F.LoadedToUI = false := by
  cases hd : stbi_load path with
  | null written =>
    have h := hasFlags_removeFlags_all F t
    have e := (loadTextureToCpu_null F stbi_load path t w written hd).2.2.1
    rw [hasFlags_congr e, hasFlags_congr e]
    exact ⟨h.1, h.2.2⟩
  | image d =>
    have h := loadTextureToCpu_ok_flags F hF stbi_load path t w d hd
    exact ⟨h.2.1, h.2.2⟩

/-- An `int` product that fits an `int` is the product. -/
theorem toInt32_mul_four {p : Int} (h1 : -2147483648 ≤ p * 4) (h2 : p * 4 < 2147483648) :
    toInt32 (toInt32 p * 4) = p * 4 := by
  have e : ∀ x : Int, -2147483648 ≤ x → x < 2147483648 → toInt32 x = x := by
    intro x hx1 hx2
    unfold toInt32
    rw [Int.emod_eq_of_lt (by omega) (by omega)]
    omega
  rw [e p (by omega) (by omega), e _ h1 h2]

theorem length_erase_add_one {l : List DevObj} {a : DevObj} (h : a ∈ l) :
    (l.erase a).length + 1 = l.length := by
  rw [List.length_erase_of_mem h]
  have : 0 < l.length := List.length_pos_of_mem h
  omega

/-- What `destroyVkObjects` does. -/
theorem destroyVkObjects_eq (t : Texture) (w : World) :
    destroyVkObjects t w =
      ⟨.returned (), t,
        { calls := w.calls ++
            [ .vkDestroySampler t.m_TextureSampler, .vkDestroyImageView t.m_TextureImageView,
              .vkDestroyImage t.m_TextureImage, .vkFreeMemory t.m_TextureImageMemory ],
          live := (((w.live.erase (.sampler t.m_TextureSampler)).erase
            (.imageView t.m_TextureImageView)).erase (.image t.m_TextureImage)).erase
            (.memory t.m_TextureImageMemory),
          next := w.next,
          script := w.script }⟩ := by
  simp [destroyVkObjects, World.destroy, World.log]

/-- The four objects an asset owns being live, destroying them shortens the
list of live objects by four. -/
theorem length_after_destroy (t : Texture) (w : World)
    (hs : DevObj.sampler t.m_TextureSampler ∈ w.live)
    (hv : DevObj.imageView t.m_TextureImageView ∈ w.live)
    (hi : DevObj.image t.m_TextureImage ∈ w.live)
    (hm : DevObj.memory t.m_TextureImageMemory ∈ w.live) :
    ((((w.live.erase (.sampler t.m_TextureSampler)).erase
      (.imageView t.m_TextureImageView)).erase (.image t.m_TextureImage)).erase
      (.memory t.m_TextureImageMemory)).length + 4 = w.live.length := by
  have h1 := length_erase_add_one hs
  have hv1 : DevObj.imageView t.m_TextureImageView ∈ w.live.erase (.sampler t.m_TextureSampler) :=
    (List.mem_erase_of_ne (by simp)).2 hv
  have hi1 : DevObj.image t.m_TextureImage ∈ (w.live.erase (.sampler t.m_TextureSampler)).erase
      (.imageView t.m_TextureImageView) :=
    (List.mem_erase_of_ne (by simp)).2 ((List.mem_erase_of_ne (by simp)).2 hi)
  have hm1 : DevObj.memory t.m_TextureImageMemory ∈
      ((w.live.erase (.sampler t.m_TextureSampler)).erase
        (.imageView t.m_TextureImageView)).erase (.image t.m_TextureImage) :=
    (List.mem_erase_of_ne (by simp)).2
      ((List.mem_erase_of_ne (by simp)).2 ((List.mem_erase_of_ne (by simp)).2 hm))
  have h2 := length_erase_add_one hv1
  have h3 := length_erase_add_one hi1
  have h4 := length_erase_add_one hm1
  omega

/-- Whatever its outcome, `fullLoad` leaves the asset not registered with the
UI layer. -/
theorem fullLoad_clears_ui (F : FlagBits) (hF : F.Independent)
    (stbi_load : String → Decode) (path : String) (t : Texture) (w : World) :
    hasFlags (fullLoad F stbi_load path t w).tex F.LoadedToUI = false := by
  have key : ∀ (t1 : Texture) (w1 : World),
      hasFlags ((loadTextureToCpu F stbi_load path t1 w1).andThen
        fun _ t2 w2 => loadToGpu F t2 w2).tex F.LoadedToUI = false := by
    intro t1 w1
    rcases andThen_tex_cases (loadTextureToCpu F stbi_load path t1 w1)
      (fun _ t2 w2 => loadToGpu F t2 w2) with h | ⟨_, h⟩
    · rw [h]
      exact (loadTextureToCpu_clears F hF stbi_load path t1 w1).2
    · rw [h, loadToGpu_keeps_ui F hF]
      exact (loadTextureToCpu_clears F hF stbi_load path t1 w1).2
  unfold fullLoad
  split_ifs
  · rw [destroyVkObjects_eq]
    exact key _ _
  · exact key _ _

/-! ## What the flags promise, in every reachable state -/

theorem andThen_cases {α β : Type} (r : Res α) (k : α → Texture → World → Res β) :
    (∃ e, r.out = .thrown e ∧ r.andThen k = ⟨.thrown e, r.tex, r.world⟩) ∨
      ∃ a, r.out = .returned a ∧ r.andThen k = k a r.tex r.world := by
  unfold Res.andThen
  cases r.out with
  | returned a => exact Or.inr ⟨a, rfl, rfl⟩
  | thrown e => exact Or.inl ⟨e, rfl, rfl⟩

theorem andThen_get {α : Type} (r : Res Unit) (f : Texture → α) :
    (r.andThen fun _ t1 w1 => ⟨.returned (f t1), t1, w1⟩).tex = r.tex ∧
    (r.andThen fun _ t1 w1 => ⟨.returned (f t1), t1, w1⟩).world = r.world := by
  unfold Res.andThen
  cases r.out <;> exact ⟨rfl, rfl⟩

/-- An asset that is neither GPU-resident nor registered is consistent. -/
theorem consistent_of_clear (F : FlagBits) (t : Texture) (w : World)
    (hg : hasFlags t F.LoadedToGPU = false) (hu : hasFlags t F.LoadedToUI = false) :
    Consistent F t w := by
  constructor
  · intro h
    rw [hg] at h
    exact absurd h Bool.false_ne_true
  · intro h
    rw [hu] at h
    exact absurd h Bool.false_ne_true

/-- Consistency survives `loadToGpu`, whatever its outcome. -/
theorem loadToGpu_consistent (F : FlagBits) (hF : F.Independent) (t : Texture) (w : World)
    (h : Consistent F t w) :
    Consistent F (loadToGpu F t w).tex (loadToGpu F t w).world := by
  by_cases hg : hasFlags t F.LoadedToGPU = true
  · have e : loadToGpu F t w = ⟨.returned (), t, w⟩ := by
      unfold loadToGpu
      rw [if_pos hg]
    rw [e]
    exact h
  · have hg' : hasFlags t F.LoadedToGPU = false := by simpa using hg
    have hu : hasFlags t F.LoadedToUI = false := by
      by_contra hu
      exact hg (h.2 (by simpa using hu)).1
    have hu' : hasFlags (loadToGpu F t w).tex F.LoadedToUI = false := by
      rw [loadToGpu_keeps_ui F hF, hu]
    cases ho : (loadToGpu F t w).out with
    | thrown e =>
      refine consistent_of_clear F _ _ ?_ hu'
      rw [hasFlags_congr (loadToGpu_thrown_flags F t w e ho), hg']
    | returned u =>
      refine ⟨fun _ => ?_, fun hx => ?_⟩
      · rw [loadToGpu_returned_eq F t w u hg' ho]
        simp [OwnsLive, GpuObjectsLive, addFlags]
      · rw [hu'] at hx
        exact absurd hx Bool.false_ne_true

/-- Consistency survives `loadTextureToCpu`, whatever its outcome. -/
theorem loadTextureToCpu_consistent (F : FlagBits) (hF : F.Independent)
    (stbi_load : String → Decode) (path : String) (t : Texture) (w : World) :
    Consistent F (loadTextureToCpu F stbi_load path t w).tex
      (loadTextureToCpu F stbi_load path t w).world :=
  consistent_of_clear F _ _ (loadTextureToCpu_clears F hF stbi_load path t w).1
    (loadTextureToCpu_clears F hF stbi_load path t w).2

/-- Consistency holds after `fullLoad`, whatever its outcome. -/
theorem fullLoad_consistent (F : FlagBits) (hF : F.Independent)
    (stbi_load : String → Decode) (path : String) (t : Texture) (w : World) :
    Consistent F (fullLoad F stbi_load path t w).tex (fullLoad F stbi_load path t w).world := by
  have key : ∀ (t1 : Texture) (w1 : World),
      Consistent F
        ((loadTextureToCpu F stbi_load path t1 w1).andThen
          fun _ t2 w2 => loadToGpu F t2 w2).tex
        ((loadTextureToCpu F stbi_load path t1 w1).andThen
          fun _ t2 w2 => loadToGpu F t2 w2).world := by
    intro t1 w1
    rcases andThen_cases (loadTextureToCpu F stbi_load path t1 w1)
      (fun _ t2 w2 => loadToGpu F t2 w2) with ⟨e, _, h⟩ | ⟨a, _, h⟩
    · rw [h]
      exact loadTextureToCpu_consistent F hF stbi_load path t1 w1
    · rw [h]
      exact loadToGpu_consistent F hF _ _
        (loadTextureToCpu_consistent F hF stbi_load path t1 w1)
  unfold fullLoad
  split_ifs
  · rw [destroyVkObjects_eq]
    exact key _ _
  · exact key _ _

/-- Consistency survives `loadToUi`, whatever its outcome. -/
theorem loadToUi_consistent (F : FlagBits) (hF : F.Independent) (t : Texture) (w : World)
    (h : Consistent F t w) :
    Consistent F (loadToUi F t w).tex (loadToUi F t w).world := by
  have reg : ∀ (t1 : Texture) (w1 : World), Consistent F t1 w1 →
      hasFlags t1 F.LoadedToGPU = true →
      Consistent F
        (addFlags { t1 with m_Id := (ImGui_ImplVulkan_AddTexture t1.m_TextureSampler
          t1.m_TextureImageView .SHADER_READ_ONLY_OPTIMAL w1).1 } F.LoadedToUI)
        (ImGui_ImplVulkan_AddTexture t1.m_TextureSampler t1.m_TextureImageView
          .SHADER_READ_ONLY_OPTIMAL w1).2 := by
    intro t1 w1 h1 hg1
    have hown := h1.1 hg1
    have hkeep : hasFlags (addFlags { t1 with m_Id := (ImGui_ImplVulkan_AddTexture
        t1.m_TextureSampler t1.m_TextureImageView .SHADER_READ_ONLY_OPTIMAL w1).1 }
        F.LoadedToUI) F.LoadedToGPU = true := by
      rw [hasFlags_addFlags_of_disjoint _ (and_comm_zero hF.2.2.2.1)]
      rw [← hg1]
      exact hasFlags_congr rfl _
    refine ⟨fun _ => ?_, fun _ => ⟨hkeep, ?_⟩⟩
    · simpa [OwnsLive, GpuObjectsLive, addFlags, ImGui_ImplVulkan_AddTexture, World.fresh,
        World.log] using hown
    · simp [Registered, addFlags, ImGui_ImplVulkan_AddTexture, World.fresh, World.log]
  unfold loadToUi
  by_cases hg : hasFlags t F.LoadedToGPU = true
  · simp only [hg, Bool.not_true, Bool.false_eq_true, if_false, Res.andThen]
    exact reg t w h hg
  · simp only [hg, Bool.not_false, if_true]
    rcases andThen_cases (loadToGpu F t w) (fun _ t1 w1 =>
      (⟨.returned (), addFlags { t1 with m_Id := (ImGui_ImplVulkan_AddTexture t1.m_TextureSampler
        t1.m_TextureImageView .SHADER_READ_ONLY_OPTIMAL w1).1 } F.LoadedToUI,
        (ImGui_ImplVulkan_AddTexture t1.m_TextureSampler t1.m_TextureImageView
          .SHADER_READ_ONLY_OPTIMAL w1).2⟩ : Res Unit)) with ⟨e, _, h2⟩ | ⟨a, ha, h2⟩
    · rw [h2]
      exact loadToGpu_consistent F hF t w h
    · rw [h2]
      exact reg _ _ (loadToGpu_consistent F hF t w h) (loadToGpu_returned F hF t w a ha)

/-- Consistency survives every operation, whatever its outcome. -/
theorem step_consistent (F : FlagBits) (hF : F.Independent) (stbi_load : String → Decode)
    (op : Op) (t : Texture) (w : World) (h : Consistent F t w) :
    Consistent F (step F stbi_load op t w).1 (step F stbi_load op t w).2 := by
  have acc : ∀ {α : Type} (f : Texture → α),
      Consistent F
        ((if (!hasFlags t F.LoadedToGPU) = true then loadToGpu F t w
          else ⟨.returned (), t, w⟩).andThen fun _ t1 w1 => ⟨.returned (f t1), t1, w1⟩).tex
        ((if (!hasFlags t F.LoadedToGPU) = true then loadToGpu F t w
          else ⟨.returned (), t, w⟩).andThen fun _ t1 w1 => ⟨.returned (f t1), t1, w1⟩).world := by
    intro α f
    rw [(andThen_get _ f).1, (andThen_get _ f).2]
    split_ifs
    · exact loadToGpu_consistent F hF t w h
    · exact h
  cases op with
  | loadTextureToCpu path => exact loadTextureToCpu_consistent F hF stbi_load path t w
  | lazyLoad path => exact loadTextureToCpu_consistent F hF stbi_load path t w
  | fullLoad path => exact fullLoad_consistent F hF stbi_load path t w
  | loadToGpu => exact loadToGpu_consistent F hF t w h
  | loadToUi => exact loadToUi_consistent F hF t w h
  | getTextureId =>
    show Consistent F (getTextureId F t w).tex (getTextureId F t w).world
    unfold getTextureId
    rw [(andThen_get _ _).1, (andThen_get _ _).2]
    split_ifs
    · exact loadToUi_consistent F hF t w h
    · exact h
  | getImage => exact acc _
  | getImageView => exact acc _
  | getSampler => exact acc _

/-- Every state reached from a consistent one is consistent. -/
theorem run_consistent (F : FlagBits) (hF : F.Independent) (stbi_load : String → Decode)
    (ops : List Op) (t : Texture) (w : World) (h : Consistent F t w) :
    Consistent F (run F stbi_load ops t w).1 (run F stbi_load ops t w).2 := by
  induction ops generalizing t w with
  | nil => exact h
  | cons op ops ih => exact ih _ _ (step_consistent F hF stbi_load op t w h)

/-- Every state reached from a newly constructed asset is consistent. -/
theorem reachable_consistent (F : FlagBits) (hF : F.Independent)
    (stbi_load : String → Decode) (ops : List Op) (w0 : World) :
    Consistent F (run F stbi_load ops Texture.fresh w0).1
      (run F stbi_load ops Texture.fresh w0).2 :=
  run_consistent F hF stbi_load ops _ _
    (consistent_of_clear F _ _ (by simp [hasFlags, Texture.fresh])
      (by simp [hasFlags, Texture.fresh]))

/-! ## Properties of the residency state machine -/

/-- C1: on an asset whose GPU-resident flag is set, `loadToGpu` returns at once:
no call leaves the asset (the world, call log and live objects included, is
unchanged) and no member changes; two calls in a row equal one.  From any
state, when a first call returns, a second call is such a no-op, so the pair
starts as many pipeline runs as the first call alone. -/
theorem loadToGpu_resident_noop (F : FlagBits) (hF : F.Independent) (t : Texture) (w : World)
    (hg : hasFlags t F.LoadedToGPU = true) :
    loadToGpu F t w = ⟨.returned (), t, w⟩ ∧
    ((loadToGpu F t w).andThen fun _ t1 w1 => loadToGpu F t1 w1) = loadToGpu F t w ∧
    (loadToGpu F t w).world.uploadRuns = w.uploadRuns ∧
    (∀ (t0 : Texture) (w0 : World) (u : Unit), (loadToGpu F t0 w0).out = .returned u →
      loadToGpu F (loadToGpu F t0 w0).tex (loadToGpu F t0 w0).world =
          ⟨.returned (), (loadToGpu F t0 w0).tex, (loadToGpu F t0 w0).world⟩ ∧
        ((loadToGpu F t0 w0).andThen fun _ t1 w1 => loadToGpu F t1 w1) = loadToGpu F t0 w0 ∧
        ((loadToGpu F t0 w0).andThen fun _ t1 w1 => loadToGpu F t1 w1).world.uploadRuns =
          (loadToGpu F t0 w0).world.uploadRuns) := by
  have noop : ∀ (t1 : Texture) (w1 : World), hasFlags t1 F.LoadedToGPU = true →
      loadToGpu F t1 w1 = ⟨.returned (), t1, w1⟩ := by
    intro t1 w1 h1
    unfold loadToGpu
    rw [if_pos h1]
  have twice : ∀ (t0 : Texture) (w0 : World) (u : Unit),
      (loadToGpu F t0 w0).out = .returned u →
      ((loadToGpu F t0 w0).andThen fun _ t1 w1 => loadToGpu F t1 w1) = loadToGpu F t0 w0 := by
    intro t0 w0 u h
    have h2 := noop _ (loadToGpu F t0 w0).world (loadToGpu_returned F hF t0 w0 u h)
    unfold Res.andThen
    rw [h]
    simp only []
    rw [h2, ← h]
  refine ⟨noop t w hg, twice t w () (by rw [noop t w hg]), by rw [noop t w hg], ?_⟩
  intro t0 w0 u h
  refine ⟨noop _ _ (loadToGpu_returned F hF t0 w0 u h), twice t0 w0 u h, ?_⟩
  rw [twice t0 w0 u h]

/-- C1 at a concrete asset: flags `GPU = 1, CPU = 2, UI = 4`, an asset with the
GPU and CPU bits set. -/
theorem loadToGpu_resident_noop_witness :
    loadToGpu ⟨1, 2, 4⟩ { Texture.fresh with m_Flags := 3 } World.init =
      ⟨.returned (), { Texture.fresh with m_Flags := 3 }, World.init⟩ :=
  (loadToGpu_resident_noop ⟨1, 2, 4⟩ (by decide) { Texture.fresh with m_Flags := 3 } World.init
    (by decide)).1

/-- C2: on an asset that is neither CPU-resident nor GPU-resident, `loadToGpu`
logs the error and then, there being no `return` after the log, runs the whole
upload pipeline, returns normally and sets the GPU-resident flag. -/
theorem loadToGpu_without_cpu_data (F : FlagBits) (hF : F.Independent) (t : Texture)
    (w : World) (hc : hasFlags t F.LoadedToCPU = false) (hg : hasFlags t F.LoadedToGPU = false)
    (hw : w.Healthy) :
    (loadToGpu F t w).out = .returned () ∧
    (loadToGpu F t w).world.calls =
      w.calls ++ Call.VERROR t.m_ContentPath :: pipelineOrder t w.next ∧
    (loadToGpu F t w).world.uploadRuns = w.uploadRuns + 1 ∧
    hasFlags (loadToGpu F t w).tex F.LoadedToGPU = true ∧
    GpuObjectsLive (loadToGpu F t w).tex (loadToGpu F t w).world := by
  rw [loadToGpu_run F t w hg hw]
  refine ⟨rfl, by simp [hc], ?_, hasFlags_addFlags_self _ hF.1.1 hF.2.1.1, ?_⟩
  · simp [hc, World.uploadRuns, pipelineOrder, List.countP_cons, Call.startsUpload]
  · simp [GpuObjectsLive, addFlags]

/-- C2 on a newly constructed asset and an unused device, with flags
`GPU = 1, CPU = 2, UI = 4`. -/
theorem loadToGpu_without_cpu_data_witness :
    (loadToGpu ⟨1, 2, 4⟩ Texture.fresh World.init).out = .returned () ∧
    (loadToGpu ⟨1, 2, 4⟩ Texture.fresh World.init).world.uploadRuns = 1 ∧
    hasFlags (loadToGpu ⟨1, 2, 4⟩ Texture.fresh World.init).tex 1 = true := by
  have h := loadToGpu_without_cpu_data ⟨1, 2, 4⟩ (by decide) Texture.fresh World.init
    (by decide) (by decide) (by decide)
  exact ⟨h.1, h.2.2.1, h.2.2.2.1⟩

/-- C3, as the code has it: when the decoder returns no pixel buffer,
`loadTextureToCpu` throws and leaves none of the three residency flags set;
data is retained: the content path is the path of the failed load, the width
and height are those the asset had before the call unless the decoder wrote
them, the byte size is their product times 4 where that fits an `int`, and
the mip count is the one computed from them where their maximum is at least
1. -/
theorem loadTextureToCpu_decode_failure (F : FlagBits) (stbi_load : String → Decode)
    (path : String) (t : Texture) (w : World) (written : Option (Int × Int))
    (hd : stbi_load path = .null written) :
    (loadTextureToCpu F stbi_load path t w).out = .thrown "Failed to load texture image!" ∧
    (hasFlags (loadTextureToCpu F stbi_load path t w).tex F.LoadedToCPU = false ∧
      hasFlags (loadTextureToCpu F stbi_load path t w).tex F.LoadedToGPU = false ∧
      hasFlags (loadTextureToCpu F stbi_load path t w).tex F.LoadedToUI = false) ∧
    (loadTextureToCpu F stbi_load path t w).tex.m_ContentPath = path ∧
    (written = none →
      (loadTextureToCpu F stbi_load path t w).tex.m_Width = t.m_Width ∧
      (loadTextureToCpu F stbi_load path t w).tex.m_Height = t.m_Height) ∧
    (∀ a b : Int, written = some (a, b) →
      (loadTextureToCpu F stbi_load path t w).tex.m_Width = a ∧
      (loadTextureToCpu F stbi_load path t w).tex.m_Height = b) ∧
    (-2147483648 ≤ (loadTextureToCpu F stbi_load path t w).tex.m_Width *
          (loadTextureToCpu F stbi_load path t w).tex.m_Height * 4 →
      (loadTextureToCpu F stbi_load path t w).tex.m_Width *
          (loadTextureToCpu F stbi_load path t w).tex.m_Height * 4 < 2147483648 →
      (loadTextureToCpu F stbi_load path t w).tex.m_Size =
        (loadTextureToCpu F stbi_load path t w).tex.m_Width *
          (loadTextureToCpu F stbi_load path t w).tex.m_Height * 4) ∧
    (1 ≤ max (loadTextureToCpu F stbi_load path t w).tex.m_Width
          (loadTextureToCpu F stbi_load path t w).tex.m_Height →
      (loadTextureToCpu F stbi_load path t w).tex.m_MipLevels =
        mipLevelCount (loadTextureToCpu F stbi_load path t w).tex.m_Width
          (loadTextureToCpu F stbi_load path t w).tex.m_Height) := by
  have h := hasFlags_removeFlags_all F t
  have n := loadTextureToCpu_null F stbi_load path t w written hd
  have hsize : (loadTextureToCpu F stbi_load path t w).tex.m_Size =
      toInt32 (toInt32 ((loadTextureToCpu F stbi_load path t w).tex.m_Width *
        (loadTextureToCpu F stbi_load path t w).tex.m_Height) * 4) := by
    cases written with
    | none => simp [loadTextureToCpu, hd]
    | some p =>
      obtain ⟨a, b⟩ := p
      simp [loadTextureToCpu, hd]
  refine ⟨n.1, ⟨?_, ?_, ?_⟩, n.2.2.2.2.1, ?_, ?_, ?_, ?_⟩
  · rw [hasFlags_congr n.2.2.1, h.2.1]
  · rw [hasFlags_congr n.2.2.1, h.1]
  · rw [hasFlags_congr n.2.2.1, h.2.2]
  · intro hn
    rw [n.2.2.2.2.2.1, n.2.2.2.2.2.2.1, hn]
    exact ⟨rfl, rfl⟩
  · intro a b hab
    rw [n.2.2.2.2.2.1, n.2.2.2.2.2.2.1, hab]
    exact ⟨rfl, rfl⟩
  · intro h1 h2
    rw [hsize]
    exact toInt32_mul_four h1 h2
  · intro _
    cases written with
    | none => simp [loadTextureToCpu, hd]
    | some p =>
      obtain ⟨a, b⟩ := p
      simp [loadTextureToCpu, hd]

/-- C3 at a concrete failed load, with flags `GPU = 1, CPU = 2, UI = 4`: the
asset holds a 4x4 `a.png`, is CPU- and GPU-resident and registered with the UI
layer, and the decoder finds no `missing.png`.  The call throws, the three
flags are clear, the content path is `missing.png`, and the width, height and
byte size are still 4, 4 and 64. -/
theorem loadTextureToCpu_decode_failure_witness :
    (loadTextureToCpu ⟨1, 2, 4⟩ (fun _ => .null none) "missing.png"
      { Texture.fresh with m_Flags := 7, m_ContentPath := "a.png", m_Pixels := some 9,
                           m_Width := 4, m_Height := 4, m_Size := 64, m_MipLevels := 3,
                           m_TextureSampler := 1, m_TextureImage := 4,
                           m_TextureImageMemory := 5, m_TextureImageView := 6, m_Id := 7 }
      World.init).out = .thrown "Failed to load texture image!" ∧
    hasFlags (loadTextureToCpu ⟨1, 2, 4⟩ (fun _ => .null none) "missing.png"
      { Texture.fresh with m_Flags := 7, m_ContentPath := "a.png", m_Pixels := some 9,
                           m_Width := 4, m_Height := 4, m_Size := 64, m_MipLevels := 3,
                           m_TextureSampler := 1, m_TextureImage := 4,
                           m_TextureImageMemory := 5, m_TextureImageView := 6, m_Id := 7 }
      World.init).tex 2 = false ∧
    (loadTextureToCpu ⟨1, 2, 4⟩ (fun _ => .null none) "missing.png"
      { Texture.fresh with m_Flags := 7, m_ContentPath := "a.png", m_Pixels := some 9,
                           m_Width := 4, m_Height := 4, m_Size := 64, m_MipLevels := 3,
                           m_TextureSampler := 1, m_TextureImage := 4,
                           m_TextureImageMemory := 5, m_TextureImageView := 6, m_Id := 7 }
      World.init).tex.m_ContentPath = "missing.png" ∧
    (loadTextureToCpu ⟨1, 2, 4⟩ (fun _ => .null none) "missing.png"
      { Texture.fresh with m_Flags := 7, m_ContentPath := "a.png", m_Pixels := some 9,
                           m_Width := 4, m_Height := 4, m_Size := 64, m_MipLevels := 3,
                           m_TextureSampler := 1, m_TextureImage := 4,
                           m_TextureImageMemory := 5, m_TextureImageView := 6, m_Id := 7 }
      World.init).tex.m_Width = 4 := by
  have h := loadTextureToCpu_decode_failure ⟨1, 2, 4⟩ (fun _ => .null none) "missing.png"
    { Texture.fresh with m_Flags := 7, m_ContentPath := "a.png", m_Pixels := some 9,
                         m_Width := 4, m_Height := 4, m_Size := 64, m_MipLevels := 3,
                         m_TextureSampler := 1, m_TextureImage := 4,
                         m_TextureImageMemory := 5, m_TextureImageView := 6, m_Id := 7 }
    World.init none rfl
  exact ⟨h.1, h.2.1.1, h.2.2.1, (h.2.2.2.1 rfl).1⟩

/-- C3 as stated fails: after a successful load of a 4x4 `a.png`, a failed load
of `missing.png` leaves the asset with the content path of the failed load and
with the width, height, byte size and mip count of the earlier load, where a
newly constructed asset has an empty path and zeros. -/
theorem loadTextureToCpu_decode_failure_keeps_data :
    (loadTextureToCpu ⟨1, 2, 4⟩
        (fun p => if p = "a.png" then .image ⟨9, 4, 4, 4⟩ else .null none) "missing.png"
        (loadTextureToCpu ⟨1, 2, 4⟩
          (fun p => if p = "a.png" then .image ⟨9, 4, 4, 4⟩ else .null none) "a.png"
          Texture.fresh World.init).tex World.init).tex =
      { Texture.fresh with m_ContentPath := "missing.png", m_Width := 4, m_Height := 4,
                           m_Size := 64, m_MipLevels := 3 } ∧
    Texture.fresh.m_ContentPath = "" ∧ Texture.fresh.m_Width = 0 ∧
    Texture.fresh.m_Height = 0 ∧ Texture.fresh.m_Size = 0 ∧ Texture.fresh.m_MipLevels = 0 := by
  refine ⟨?_, rfl, rfl, rfl, rfl, rfl⟩
  simp [loadTextureToCpu, removeFlags, addFlags, Texture.fresh, mipLevelCount, Nat.log2,
    toInt32]
  decide

/-- C4: on an asset that is CPU-resident and not GPU-resident (every creation
succeeding), each of `getImage`, `getImageView` and `getSampler` runs the upload
pipeline once, returns the handle that run created and leaves the asset
GPU-resident; on the asset so left, each of the three accessors returns the
stored handle and leaves asset and world (hence the call log) as they are. -/
theorem accessors_upload_once (F : FlagBits) (hF : F.Independent) (t : Texture) (w : World)
    (hc : hasFlags t F.LoadedToCPU = true) (hg : hasFlags t F.LoadedToGPU = false)
    (hw : w.Healthy) :
    ∃ (T : Texture) (W : World),
      (getImage F t w = ⟨.returned (w.next + 3), T, W⟩ ∧
        getImageView F t w = ⟨.returned (w.next + 5), T, W⟩ ∧
        getSampler F t w = ⟨.returned w.next, T, W⟩) ∧
      W.calls = w.calls ++ pipelineOrder t w.next ∧
      W.uploadRuns = w.uploadRuns + 1 ∧
      (T.m_TextureImage = w.next + 3 ∧ T.m_TextureImageView = w.next + 5 ∧
        T.m_TextureSampler = w.next) ∧
      (Call.createImage t.m_Width t.m_Height t.m_MipLevels
          (some (T.m_TextureImage, T.m_TextureImageMemory)) ∈ pipelineOrder t w.next ∧
        Call.createImageView T.m_TextureImage t.m_MipLevels (some T.m_TextureImageView) ∈
          pipelineOrder t w.next ∧
        Call.vkCreateSampler t.m_MipLevels (some T.m_TextureSampler) ∈ pipelineOrder t w.next) ∧
      hasFlags T F.LoadedToGPU = true ∧
      GpuObjectsLive T W ∧
      (∀ w1 : World,
        getImage F T w1 = ⟨.returned T.m_TextureImage, T, w1⟩ ∧
        getImageView F T w1 = ⟨.returned T.m_TextureImageView, T, w1⟩ ∧
        getSampler F T w1 = ⟨.returned T.m_TextureSampler, T, w1⟩) := by
  have hrun := loadToGpu_run F t w hg hw
  have hT : hasFlags
      (addFlags
        { t with m_TextureSampler := w.next, m_TextureImage := w.next + 3,
                 m_TextureImageMemory := w.next + 4, m_TextureImageView := w.next + 5 }
        F.LoadedToGPU)
      F.LoadedToGPU = true := hasFlags_addFlags_self _ hF.1.1 hF.2.1.1
  refine ⟨(loadToGpu F t w).tex, (loadToGpu F t w).world, ?_⟩
  simp only [getImage, getImageView, getSampler, hg, Bool.not_false, if_true]
  rw [hrun]
  simp only [Res.andThen]
  refine ⟨⟨?_, ?_, ?_⟩, ?_, ?_, ?_, ?_, hT, ?_, ?_⟩
  · simp [addFlags]
  · simp [addFlags]
  · simp [addFlags]
  · simp [hc]
  · simp [hc, World.uploadRuns, pipelineOrder, List.countP_cons, Call.startsUpload]
  · simp [addFlags]
  · simp [addFlags, pipelineOrder]
  · simp [GpuObjectsLive, addFlags]
  · intro w1
    simp only [hT, Bool.not_true, Bool.false_eq_true, if_false]
    simp

/-- C4 on a CPU-resident 4x4 asset and an unused device, with flags
`GPU = 1, CPU = 2, UI = 4`: `getImage` returns handle 4. -/
theorem accessors_upload_once_witness :
    ∃ (T : Texture) (W : World),
      getImage ⟨1, 2, 4⟩
        { Texture.fresh with m_Flags := 2, m_Pixels := some 9, m_Width := 4, m_Height := 4,
                             m_Size := 64, m_MipLevels := 3 } World.init =
        ⟨.returned 4, T, W⟩ ∧ W.uploadRuns = 1 := by
  obtain ⟨T, W, h1, _, h3, _⟩ := accessors_upload_once ⟨1, 2, 4⟩ (by decide)
    { Texture.fresh with m_Flags := 2, m_Pixels := some 9, m_Width := 4, m_Height := 4,
                         m_Size := 64, m_MipLevels := 3 } World.init
    (by decide) (by decide) (by decide)
  exact ⟨T, W, h1.1, h3⟩

/-- C5: after `fullLoad` of a decodable path followed by `lazyLoad` of the same
path, on a new asset and an unused device, the GPU-resident flag is clear
while the asset's image, image view and sampler are all still live: the
second load cleared the flag without destroying the objects.  The other
direction holds in every state reached from a newly constructed asset: when
the flag is set the three objects are live. -/
theorem lazyLoad_after_fullLoad_leaves_objects (F : FlagBits) (hF : F.Independent)
    (stbi_load : String → Decode) (path : String) (d : Decoded)
    (hd : stbi_load path = .image d) :
    hasFlags (run F stbi_load [.fullLoad path, .lazyLoad path] Texture.fresh World.init).1
      F.LoadedToGPU = false ∧
    GpuObjectsLive (run F stbi_load [.fullLoad path, .lazyLoad path] Texture.fresh World.init).1
      (run F stbi_load [.fullLoad path, .lazyLoad path] Texture.fresh World.init).2 ∧
    (run F stbi_load [.fullLoad path, .lazyLoad path] Texture.fresh World.init).2.live =
      [.imageView 6, .memory 5, .image 4, .sampler 1] ∧
    (∀ (ops : List Op) (w0 : World),
      hasFlags (run F stbi_load ops Texture.fresh w0).1 F.LoadedToGPU = true →
      GpuObjectsLive (run F stbi_load ops Texture.fresh w0).1
        (run F stbi_load ops Texture.fresh w0).2) := by
  have h0 : hasFlags Texture.fresh F.LoadedToGPU = false := by
    simp [hasFlags, Texture.fresh]
  have e1 : fullLoad F stbi_load path Texture.fresh World.init =
      loadToGpu F (loadTextureToCpu F stbi_load path Texture.fresh World.init).tex
        World.init := by
    unfold fullLoad
    rw [if_neg (by simp [h0])]
    simp only [Res.andThen]
    rw [loadTextureToCpu_ok F stbi_load path _ _ d hd]
  have hfl := loadTextureToCpu_ok_flags F hF stbi_load path Texture.fresh World.init d hd
  have e2 := loadToGpu_run F _ World.init hfl.2.1 (by decide)
  simp only [run, step, lazyLoad]
  rw [e1, e2]
  dsimp only
  refine ⟨(loadTextureToCpu_clears F hF stbi_load path _ _).1, ?_, ?_,
    fun ops w0 hg => ((reachable_consistent F hF stbi_load ops w0).1 hg).1⟩
  · rw [loadTextureToCpu_ok F stbi_load path _ _ d hd]
    simp [GpuObjectsLive, addFlags, removeFlags, World.init]
  · rw [loadTextureToCpu_ok F stbi_load path _ _ d hd]
    simp [World.init]

/-- C5 with flags `GPU = 1, CPU = 2, UI = 4` and a decoder that knows a 4x4
`a.png`. -/
theorem lazyLoad_after_fullLoad_leaves_objects_witness :
    hasFlags (run ⟨1, 2, 4⟩ (fun _ => .image ⟨9, 4, 4, 4⟩) [.fullLoad "a.png", .lazyLoad "a.png"]
      Texture.fresh World.init).1 1 = false ∧
    GpuObjectsLive
      (run ⟨1, 2, 4⟩ (fun _ => .image ⟨9, 4, 4, 4⟩) [.fullLoad "a.png", .lazyLoad "a.png"]
        Texture.fresh World.init).1
      (run ⟨1, 2, 4⟩ (fun _ => .image ⟨9, 4, 4, 4⟩) [.fullLoad "a.png", .lazyLoad "a.png"]
        Texture.fresh World.init).2 := by
  have h := lazyLoad_after_fullLoad_leaves_objects ⟨1, 2, 4⟩ (by decide)
    (fun _ => .image ⟨9, 4, 4, 4⟩) "a.png" ⟨9, 4, 4, 4⟩ rfl
  exact ⟨h.1, h.2.1⟩

/-- C6: `fullLoad` of a decodable path on a GPU-resident asset whose sampler,
image view, image and image memory are live (every creation succeeding)
returns; its calls are the four destructions of the previous objects followed
by the calls of one pipeline run, so every destruction precedes every
creation; the number of live device objects after the call equals the number
before it; and the asset is GPU-resident again, its new sampler, image view,
image and image memory being live.  The four objects of a GPU-resident asset
are live in every state reached from a newly constructed asset. -/
theorem fullLoad_reload (F : FlagBits) (hF : F.Independent)
    (stbi_load : String → Decode) (path : String) (d : Decoded)
    (hd : stbi_load path = .image d) :
    (∀ (t : Texture) (w : World), hasFlags t F.LoadedToGPU = true → w.Healthy → OwnsLive t w →
      ∃ (T : Texture) (W : World),
        fullLoad F stbi_load path t w = ⟨.returned (), T, W⟩ ∧
        W.calls = w.calls ++
          [ .vkDestroySampler t.m_TextureSampler, .vkDestroyImageView t.m_TextureImageView,
            .vkDestroyImage t.m_TextureImage, .vkFreeMemory t.m_TextureImageMemory ] ++
          pipelineOrder T w.next ∧
        W.live = .imageView (w.next + 5) :: .memory (w.next + 4) :: .image (w.next + 3) ::
          .sampler w.next ::
            (((w.live.erase (.sampler t.m_TextureSampler)).erase
              (.imageView t.m_TextureImageView)).erase (.image t.m_TextureImage)).erase
              (.memory t.m_TextureImageMemory) ∧
        W.live.length = w.live.length ∧
        hasFlags T F.LoadedToGPU = true ∧
        OwnsLive T W ∧
        (T.m_TextureSampler = w.next ∧ T.m_TextureImage = w.next + 3 ∧
          T.m_TextureImageMemory = w.next + 4 ∧ T.m_TextureImageView = w.next + 5)) ∧
    (∀ (ops : List Op) (w0 : World),
      hasFlags (run F stbi_load ops Texture.fresh w0).1 F.LoadedToGPU = true →
      OwnsLive (run F stbi_load ops Texture.fresh w0).1
        (run F stbi_load ops Texture.fresh w0).2) := by
  refine ⟨?_, fun ops w0 hg => (reachable_consistent F hF stbi_load ops w0).1 hg⟩
  intro t w hg hw hown
  obtain ⟨⟨hi, hv, hs⟩, hm⟩ := hown
  have hfl := loadTextureToCpu_ok_flags F hF stbi_load path t
  have hlen := length_after_destroy t w hs hv hi hm
  unfold fullLoad
  rw [if_pos hg, destroyVkObjects_eq]
  simp only [Res.andThen]
  have hfl1 := hfl
    { calls := w.calls ++
        [ .vkDestroySampler t.m_TextureSampler, .vkDestroyImageView t.m_TextureImageView,
          .vkDestroyImage t.m_TextureImage, .vkFreeMemory t.m_TextureImageMemory ],
      live := (((w.live.erase (.sampler t.m_TextureSampler)).erase
        (.imageView t.m_TextureImageView)).erase (.image t.m_TextureImage)).erase
        (.memory t.m_TextureImageMemory),
      next := w.next,
      script := w.script } d hd
  rw [loadTextureToCpu_ok F stbi_load path t _ d hd] at hfl1 ⊢
  dsimp only at hfl1 ⊢
  rw [loadToGpu_run F _ _ hfl1.2.1 (by exact hw)]
  refine ⟨_, _, rfl, ?_, rfl, ?_, hasFlags_addFlags_self _ hF.1.1 hF.2.1.1, ?_, ?_⟩
  · rw [if_pos hfl1.1]
    simp [pipelineOrder, addFlags]
  · simp only [List.length_cons]
    omega
  · simp [OwnsLive, GpuObjectsLive, addFlags]
  · simp [addFlags]

/-- C6 on the asset and device a first `fullLoad` of a 4x4 image leaves, with
flags `GPU = 1, CPU = 2, UI = 4`: a second `fullLoad` returns and leaves four
live objects. -/
theorem fullLoad_reload_witness :
    ∃ (T : Texture) (W : World),
      fullLoad ⟨1, 2, 4⟩ (fun _ => .image ⟨9, 4, 4, 4⟩) "a.png"
        { Texture.fresh with m_Flags := 3, m_TextureSampler := 1, m_TextureImage := 4,
                             m_TextureImageMemory := 5, m_TextureImageView := 6 }
        { World.init with live := [.imageView 6, .memory 5, .image 4, .sampler 1], next := 7 } =
        ⟨.returned (), T, W⟩ ∧ W.live.length = 4 := by
  obtain ⟨T, W, h1, _, _, h4, _⟩ := (fullLoad_reload ⟨1, 2, 4⟩ (by decide)
    (fun _ => .image ⟨9, 4, 4, 4⟩) "a.png" ⟨9, 4, 4, 4⟩ rfl).1
    { Texture.fresh with m_Flags := 3, m_TextureSampler := 1, m_TextureImage := 4,
                         m_TextureImageMemory := 5, m_TextureImageView := 6 }
    { World.init with live := [.imageView 6, .memory 5, .image 4, .sampler 1], next := 7 }
    (by decide) (by decide) (by decide)
  exact ⟨T, W, h1, h4⟩

/-- C7: a run of the upload pipeline (`loadToGpu` on a CPU-resident asset that
is not GPU-resident, every creation succeeding) returns and appends exactly
these calls, in this order, to the call log; the staging buffer and its memory
are no longer live on return: the live objects are the former ones plus the
new sampler, image, image memory and image view. -/
theorem loadToGpu_call_order (F : FlagBits) (t : Texture) (w : World)
    (hc : hasFlags t F.LoadedToCPU = true) (hg : hasFlags t F.LoadedToGPU = false)
    (hw : w.Healthy) :
    (loadToGpu F t w).out = .returned () ∧
    (loadToGpu F t w).world.calls = w.calls ++
      [ .vkCreateSampler t.m_MipLevels (some w.next),
        .createBuffer t.m_Size (some (w.next + 1, w.next + 2)),
        .vkMapMemory (w.next + 2) t.m_Size,
        .memcpy t.m_Pixels t.m_Size,
        .vkUnmapMemory (w.next + 2),
        .stbi_image_free t.m_Pixels,
        .createImage t.m_Width t.m_Height t.m_MipLevels (some (w.next + 3, w.next + 4)),
        .transitionImageLayout (w.next + 3) .UNDEFINED .TRANSFER_DST_OPTIMAL t.m_MipLevels,
        .copyBufferToImage (w.next + 1) (w.next + 3) t.m_Width t.m_Height,
        .generateMipmaps (w.next + 3) t.m_Width t.m_Height t.m_MipLevels,
        .vkDestroyBuffer (w.next + 1),
        .vkFreeMemory (w.next + 2),
        .createImageView (w.next + 3) t.m_MipLevels (some (w.next + 5)) ] ∧
    (loadToGpu F t w).world.live =
      .imageView (w.next + 5) :: .memory (w.next + 4) :: .image (w.next + 3) ::
        .sampler w.next :: w.live ∧
    ((loadToGpu F t w).tex.m_TextureSampler = w.next ∧
      (loadToGpu F t w).tex.m_TextureImage = w.next + 3 ∧
      (loadToGpu F t w).tex.m_TextureImageMemory = w.next + 4 ∧
      (loadToGpu F t w).tex.m_TextureImageView = w.next + 5) := by
  rw [loadToGpu_run F t w hg hw]
  refine ⟨rfl, by simp [hc, pipelineOrder], rfl, ?_⟩
  simp [addFlags]

/-- C7 on a CPU-resident 4x4 asset and an unused device, with flags
`GPU = 1, CPU = 2, UI = 4`. -/
theorem loadToGpu_call_order_witness :
    (loadToGpu ⟨1, 2, 4⟩
      { Texture.fresh with m_Flags := 2, m_Pixels := some 9, m_Width := 4, m_Height := 4,
                           m_Size := 64, m_MipLevels := 3 } World.init).world.live =
      [.imageView 6, .memory 5, .image 4, .sampler 1] :=
  (loadToGpu_call_order ⟨1, 2, 4⟩
    { Texture.fresh with m_Flags := 2, m_Pixels := some 9, m_Width := 4, m_Height := 4,
                         m_Size := 64, m_MipLevels := 3 } World.init
    (by decide) (by decide) (by decide)).2.2.1

/-- C8: after a successful decode of an image of width and height at least 1
(and within the range of `int`), the recorded mip-level count is the floor of
the binary logarithm of `max width height`, plus one; it is the unique `k` with
`2 ^ (k - 1) ≤ max width height < 2 ^ k`; for a 257x100 image it is 9. -/
theorem loadTextureToCpu_mipLevels (F : FlagBits) (stbi_load : String → Decode)
    (path : String) (t : Texture) (w : World) (d : Decoded) (hd : stbi_load path = .image d)
    (hw1 : 1 ≤ d.width) (hh1 : 1 ≤ d.height) (hw2 : d.width < 2147483648)
    (hh2 : d.height < 2147483648) :
    (loadTextureToCpu F stbi_load path t w).out = .returned () ∧
    (loadTextureToCpu F stbi_load path t w).tex.m_MipLevels =
      Nat.log2 (max d.width d.height).toNat + 1 ∧
    ((2 : Int) ^ ((loadTextureToCpu F stbi_load path t w).tex.m_MipLevels - 1) ≤
        max d.width d.height ∧
      max d.width d.height < (2 : Int) ^ (loadTextureToCpu F stbi_load path t w).tex.m_MipLevels) ∧
    (∀ k : Nat, (2 : Int) ^ (k - 1) ≤ max d.width d.height → max d.width d.height < (2 : Int) ^ k →
      k = (loadTextureToCpu F stbi_load path t w).tex.m_MipLevels) ∧
    (d.width = 257 → d.height = 100 →
      (loadTextureToCpu F stbi_load path t w).tex.m_MipLevels = 9) := by
  have e1 : (loadTextureToCpu F stbi_load path t w).out = .returned () := by
    simp [loadTextureToCpu, hd]
  have e2 : (loadTextureToCpu F stbi_load path t w).tex.m_MipLevels =
      mipLevelCount d.width d.height := by
    simp [loadTextureToCpu, hd, addFlags]
  rw [e2]
  obtain ⟨n, hn⟩ : ∃ n : Nat, max d.width d.height = (n : Int) :=
    ⟨(max d.width d.height).toNat, (Int.toNat_of_nonneg (by omega)).symm⟩
  have hn1 : n ≠ 0 := by omega
  have hn2 : n < 2 ^ 31 := by
    have : (n : Int) < 2147483648 := by omega
    have h31 : (2 : Nat) ^ 31 = 2147483648 := by norm_num
    omega
  have hlog : Nat.log2 n < 31 := (Nat.log2_lt hn1).2 hn2
  have em : mipLevelCount d.width d.height = Nat.log2 n + 1 := by
    unfold mipLevelCount
    rw [hn, Int.toNat_natCast]
    exact Nat.mod_eq_of_lt (by omega)
  rw [em, hn, Int.toNat_natCast]
  refine ⟨e1, rfl, ⟨?_, ?_⟩, ?_, ?_⟩
  · have := Nat.log2_self_le hn1
    rw [Nat.add_sub_cancel]
    exact_mod_cast this
  · have := @Nat.lt_log2_self n
    exact_mod_cast this
  · intro k hk1 hk2
    have hk1n : 2 ^ (k - 1) ≤ n := by exact_mod_cast hk1
    have hk2n : n < 2 ^ k := by exact_mod_cast hk2
    have h1 : Nat.log2 n < k := (Nat.log2_lt hn1).2 hk2n
    have h2 : ¬ Nat.log2 n < k - 1 := fun h => by
      have := (Nat.log2_lt hn1).1 h
      omega
    omega
  · intro h257 h100
    have : n = 257 := by
      rw [h257, h100] at hn
      have : ((257 : Nat) : Int) = (n : Int) := by simpa using hn
      exact_mod_cast this.symm
    rw [this]
    simp [Nat.log2]

/-- C8 on a decoded 257x100 image, with flags `GPU = 1, CPU = 2, UI = 4`. -/
theorem loadTextureToCpu_mipLevels_witness :
    (loadTextureToCpu ⟨1, 2, 4⟩ (fun _ => .image ⟨9, 257, 100, 4⟩) "a.png" Texture.fresh
      World.init).tex.m_MipLevels = 9 :=
  (loadTextureToCpu_mipLevels ⟨1, 2, 4⟩ (fun _ => .image ⟨9, 257, 100, 4⟩) "a.png" Texture.fresh
    World.init ⟨9, 257, 100, 4⟩ rfl (by decide) (by decide) (by decide) (by decide)).2.2.2.2
    rfl rfl

/-- C9: `getTextureId` on a CPU-resident asset, every creation succeeding.
With the UI-registered flag set it makes no call and returns the stored
handle.  With the flag clear and the asset GPU-resident it makes one call, the
registration of the asset's sampler and view, stores and returns the handle
issued and sets the flag.  With the flag clear and the asset not GPU-resident
it first runs the upload pipeline once and then registers the sampler and view
that run created.  After `fullLoad` or `loadTextureToCpu`, whatever their
outcome, the flag is clear.  In every state reached from a newly constructed
asset in which the flag is set, the asset is GPU-resident and the stored
handle is one the UI binding layer issued for the current sampler and view. -/
theorem getTextureId_registers (F : FlagBits) (hF : F.Independent) (t : Texture) (w : World)
    (hc : hasFlags t F.LoadedToCPU = true) (hw : w.Healthy) :
    (hasFlags t F.LoadedToUI = true → getTextureId F t w = ⟨.returned t.m_Id, t, w⟩) ∧
    (hasFlags t F.LoadedToUI = false → hasFlags t F.LoadedToGPU = true →
      getTextureId F t w =
        ⟨.returned w.next, addFlags { t with m_Id := w.next } F.LoadedToUI,
          { w with
            calls := w.calls ++
              [.ImGui_ImplVulkan_AddTexture t.m_TextureSampler t.m_TextureImageView
                .SHADER_READ_ONLY_OPTIMAL w.next],
            next := w.next + 1 }⟩) ∧
    (hasFlags t F.LoadedToUI = false → hasFlags t F.LoadedToGPU = false →
      ∃ (T : Texture) (W : World),
        getTextureId F t w = ⟨.returned (w.next + 6), T, W⟩ ∧
        T.m_Id = w.next + 6 ∧ T.m_TextureSampler = w.next ∧ T.m_TextureImageView = w.next + 5 ∧
        W.calls = w.calls ++ pipelineOrder t w.next ++
          [.ImGui_ImplVulkan_AddTexture T.m_TextureSampler T.m_TextureImageView
            .SHADER_READ_ONLY_OPTIMAL (w.next + 6)] ∧
        hasFlags T F.LoadedToGPU = true) ∧
    (hasFlags t F.LoadedToUI = false →
      (getTextureId F t w).out = .returned (getTextureId F t w).tex.m_Id ∧
      hasFlags (getTextureId F t w).tex F.LoadedToUI = true ∧
      (getTextureId F t w).world.registrations = w.registrations + 1 ∧
      (getTextureId F t w).world.uploadRuns =
        w.uploadRuns + (if hasFlags t F.LoadedToGPU then 0 else 1)) ∧
    (∀ (stbi_load : String → Decode) (path : String) (t0 : Texture) (w0 : World),
      hasFlags (fullLoad F stbi_load path t0 w0).tex F.LoadedToUI = false ∧
      hasFlags (loadTextureToCpu F stbi_load path t0 w0).tex F.LoadedToUI = false) ∧
    (∀ (stbi_load : String → Decode) (ops : List Op) (w0 : World),
      hasFlags (run F stbi_load ops Texture.fresh w0).1 F.LoadedToUI = true →
      hasFlags (run F stbi_load ops Texture.fresh w0).1 F.LoadedToGPU = true ∧
      Registered (run F stbi_load ops Texture.fresh w0).1
        (run F stbi_load ops Texture.fresh w0).2) := by
  have hui : ∀ t1 : Texture, hasFlags (addFlags t1 F.LoadedToUI) F.LoadedToUI = true :=
    fun t1 => hasFlags_addFlags_self t1 hF.1.2.2 hF.2.1.2.2
  have hgpu : ∀ t1 : Texture, hasFlags (addFlags t1 F.LoadedToGPU) F.LoadedToGPU = true :=
    fun t1 => hasFlags_addFlags_self t1 hF.1.1 hF.2.1.1
  have hkeep : ∀ t1 : Texture,
      hasFlags (addFlags t1 F.LoadedToUI) F.LoadedToGPU = hasFlags t1 F.LoadedToGPU :=
    fun t1 => hasFlags_addFlags_of_disjoint t1 (and_comm_zero hF.2.2.2.1)
  have resident : hasFlags t F.LoadedToUI = false → hasFlags t F.LoadedToGPU = true →
      getTextureId F t w =
        ⟨.returned w.next, addFlags { t with m_Id := w.next } F.LoadedToUI,
          { w with
            calls := w.calls ++
              [.ImGui_ImplVulkan_AddTexture t.m_TextureSampler t.m_TextureImageView
                .SHADER_READ_ONLY_OPTIMAL w.next],
            next := w.next + 1 }⟩ := by
    intro hu hg
    simp [getTextureId, loadToUi, hu, hg, Res.andThen, ImGui_ImplVulkan_AddTexture, World.fresh,
      World.log, addFlags]
  have absent : hasFlags t F.LoadedToUI = false → hasFlags t F.LoadedToGPU = false →
      getTextureId F t w =
        ⟨.returned (w.next + 6),
          addFlags
            { addFlags
                { t with m_TextureSampler := w.next, m_TextureImage := w.next + 3,
                         m_TextureImageMemory := w.next + 4, m_TextureImageView := w.next + 5 }
                F.LoadedToGPU with m_Id := w.next + 6 } F.LoadedToUI,
          { calls := w.calls ++ pipelineOrder t w.next ++
              [.ImGui_ImplVulkan_AddTexture w.next (w.next + 5) .SHADER_READ_ONLY_OPTIMAL
                (w.next + 6)],
            live := .imageView (w.next + 5) :: .memory (w.next + 4) :: .image (w.next + 3) ::
              .sampler w.next :: w.live,
            next := w.next + 7,
            script := w.script.tail.tail.tail.tail }⟩ := by
    intro hu hg
    simp only [getTextureId, loadToUi, hu, hg, Bool.not_false, if_true]
    rw [loadToGpu_run F t w hg hw]
    simp [Res.andThen, ImGui_ImplVulkan_AddTexture, World.fresh, World.log, addFlags, hc]
  refine ⟨?_, resident, ?_, ?_, ?_,
    fun stbi_load ops w0 => (reachable_consistent F hF stbi_load ops w0).2⟩
  · intro hu
    simp [getTextureId, hu, Res.andThen]
  · intro hu hg
    rw [absent hu hg]
    refine ⟨_, _, rfl, ?_, ?_, ?_, ?_, ?_⟩
    · simp [addFlags]
    · simp [addFlags]
    · simp [addFlags]
    · simp [addFlags]
    · rw [hkeep]
      exact hasFlags_congr rfl _ ▸ hgpu _
  · intro hu
    by_cases hg : hasFlags t F.LoadedToGPU = true
    · rw [resident hu hg]
      refine ⟨by simp [addFlags], hui _, ?_, ?_⟩
      · simp [World.registrations, List.countP_cons, Call.registersTexture]
      · simp [World.uploadRuns, List.countP_cons, Call.startsUpload, hg]
    · have hg' : hasFlags t F.LoadedToGPU = false := by simpa using hg
      rw [absent hu hg']
      refine ⟨by simp [addFlags], hui _, ?_, ?_⟩
      · simp [World.registrations, pipelineOrder, List.countP_cons, Call.registersTexture]
      · simp [World.uploadRuns, pipelineOrder, List.countP_cons, Call.startsUpload, hg']
  · intro stbi_load path t0 w0
    exact ⟨fullLoad_clears_ui F hF stbi_load path t0 w0,
      (loadTextureToCpu_clears F hF stbi_load path t0 w0).2⟩

/-- C9 on the asset and device a `fullLoad` of a 4x4 image leaves, with flags
`GPU = 1, CPU = 2, UI = 4`: `getTextureId` registers sampler 1 and view 6 and
returns the handle 7 the UI layer issued. -/
theorem getTextureId_registers_witness :
    getTextureId ⟨1, 2, 4⟩
        { Texture.fresh with m_Flags := 3, m_TextureSampler := 1, m_TextureImage := 4,
                             m_TextureImageMemory := 5, m_TextureImageView := 6 }
        { World.init with live := [.imageView 6, .memory 5, .image 4, .sampler 1], next := 7 } =
      ⟨.returned 7,
        { Texture.fresh with m_Flags := 7, m_TextureSampler := 1, m_TextureImage := 4,
                             m_TextureImageMemory := 5, m_TextureImageView := 6, m_Id := 7 },
        { calls := [.ImGui_ImplVulkan_AddTexture 1 6 .SHADER_READ_ONLY_OPTIMAL 7],
          live := [.imageView 6, .memory 5, .image 4, .sampler 1], next := 8, script := [] }⟩ :=
  (getTextureId_registers ⟨1, 2, 4⟩ (by decide)
    { Texture.fresh with m_Flags := 3, m_TextureSampler := 1, m_TextureImage := 4,
                         m_TextureImageMemory := 5, m_TextureImageView := 6 }
    { World.init with live := [.imageView 6, .memory 5, .image 4, .sampler 1], next := 7 }
    (by decide) (by decide)).2.1 (by decide) (by decide)

/-- C10: the flag helpers on 16-bit words `m` and `f`.  `removeFlags` stores
`(m & f) ^ m`, which is `m` AND NOT `f`: bit `i` of the result is set exactly
when it is set in `m` and clear in `f`.  `addFlags` stores `m | f`.  Both keep
the word within 16 bits and are idempotent.  `hasFlags f` is false right after
`removeFlags f` and, for `f ≠ 0`, true right after `addFlags f`; it holds
exactly when some bit of `f` is set in `m`, as with `m = 1`, `f = 3`. -/
theorem flags_bitset_algebra (t : Texture) (f : Nat) (hm : t.m_Flags < 65536)
    (hf : f < 65536) :
    (removeFlags t f).m_Flags = (t.m_Flags &&& f) ^^^ t.m_Flags ∧
    (removeFlags t f).m_Flags = t.m_Flags &&& (65535 ^^^ f) ∧
    (∀ i, (removeFlags t f).m_Flags.testBit i = (t.m_Flags.testBit i && !f.testBit i)) ∧
    (addFlags t f).m_Flags = t.m_Flags ||| f ∧
    (removeFlags t f).m_Flags < 65536 ∧ (addFlags t f).m_Flags < 65536 ∧
    removeFlags (removeFlags t f) f = removeFlags t f ∧
    addFlags (addFlags t f) f = addFlags t f ∧
    hasFlags (removeFlags t f) f = false ∧
    (f ≠ 0 → hasFlags (addFlags t f) f = true) ∧
    (hasFlags t f = true ↔ ∃ i, t.m_Flags.testBit i = true ∧ f.testBit i = true) ∧
    (hasFlags { t with m_Flags := 1 } 3 = true ∧ (1 : Nat) &&& 3 ≠ 3) := by
  have h16 : (65536 : Nat) = 2 ^ 16 := by norm_num
  have h15 : (65535 : Nat) = 2 ^ 16 - 1 := by norm_num
  have hbit : ∀ i, (removeFlags t f).m_Flags.testBit i = (t.m_Flags.testBit i && !f.testBit i) := by
    intro i
    rw [testBit_removeFlags]
    by_cases hi : i < 16
    · simp [hi]
    · have : t.m_Flags.testBit i = false := by
        by_contra h
        exact hi (testBit_of_lt_65536 hm (by simpa using h))
      simp [this]
  have hadd : (addFlags t f).m_Flags = t.m_Flags ||| f := by
    apply Nat.eq_of_testBit_eq
    intro i
    rw [testBit_addFlags, Nat.testBit_or]
    by_cases hi : i < 16
    · simp [hi]
    · have h1 : t.m_Flags.testBit i = false := by
        by_contra h
        exact hi (testBit_of_lt_65536 hm (by simpa using h))
      have h2 : f.testBit i = false := by
        by_contra h
        exact hi (testBit_of_lt_65536 hf (by simpa using h))
      simp [h1, h2]
  refine ⟨?_, ?_, hbit, hadd, ?_, ?_, ?_, ?_, ?_, ?_, ?_, ?_⟩
  · apply Nat.eq_of_testBit_eq
    intro i
    rw [hbit, Nat.testBit_xor, Nat.testBit_and]
    cases t.m_Flags.testBit i <;> cases f.testBit i <;> rfl
  · apply Nat.eq_of_testBit_eq
    intro i
    rw [hbit, Nat.testBit_and, Nat.testBit_xor, h15, Nat.testBit_two_pow_sub_one]
    by_cases hi : i < 16
    · simp [hi]
    · have : t.m_Flags.testBit i = false := by
        by_contra h
        exact hi (testBit_of_lt_65536 hm (by simpa using h))
      simp [this]
  · exact Nat.mod_lt _ (by norm_num)
  · exact Nat.mod_lt _ (by norm_num)
  · have : (removeFlags (removeFlags t f) f).m_Flags = (removeFlags t f).m_Flags := by
      apply Nat.eq_of_testBit_eq
      intro i
      rw [testBit_removeFlags, testBit_removeFlags]
      cases decide (i < 16) <;> cases t.m_Flags.testBit i <;> cases f.testBit i <;> rfl
    simpa [removeFlags] using this
  · have : (addFlags (addFlags t f) f).m_Flags = (addFlags t f).m_Flags := by
      apply Nat.eq_of_testBit_eq
      intro i
      rw [testBit_addFlags, testBit_addFlags]
      cases decide (i < 16) <;> cases t.m_Flags.testBit i <;> cases f.testBit i <;> rfl
    simpa [addFlags] using this
  · rw [hasFlags_eq_false_iff]
    intro i _ h
    rw [hbit] at h
    cases hfi : f.testBit i
    · rfl
    · simp [hfi] at h
  · intro hf0
    obtain ⟨i, hi⟩ := Nat.ne_zero_implies_bit_true hf0
    rw [hasFlags_iff]
    refine ⟨i, testBit_of_lt_65536 hf hi, ?_, hi⟩
    rw [hadd, Nat.testBit_or, hi, Bool.or_true]
  · rw [hasFlags_iff]
    constructor
    · rintro ⟨i, _, h1, h2⟩
      exact ⟨i, h1, h2⟩
    · rintro ⟨i, h1, h2⟩
      exact ⟨i, testBit_of_lt_65536 hm h1, h1, h2⟩
  · constructor
    · show (((1 : Nat) &&& (3 % 65536)) != 0) = true
      decide
    · decide

/-- C10 at `m = 7`, `f = 2` for `removeFlags` and `m = 5`, `f = 2` for
`addFlags`. -/
theorem flags_bitset_algebra_witness :
    (removeFlags { Texture.fresh with m_Flags := 7 } 2).m_Flags = 5 ∧
    (addFlags { Texture.fresh with m_Flags := 5 } 2).m_Flags = 7 := by
  have h := flags_bitset_algebra { Texture.fresh with m_Flags := 7 } 2 (by decide) (by decide)
  have h2 := flags_bitset_algebra { Texture.fresh with m_Flags := 5 } 2 (by decide) (by decide)
  exact ⟨h.1.trans (by decide), h2.2.2.2.1.trans (by decide)⟩

end omp
